import Mathlib

set_option maxRecDepth 4000
set_option linter.unusedVariables false

/-!
StandardGPT — verification of the query-orchestration core

A shallow embedding, in Lean 4, of the parts of the StandardGPT repository
(`app.py`, `src/flow_manager.py`, `src/prompt_manager.py`,
`src/elasticsearch_client.py`, `src/query_builders.py`, `src/qo_filter.py`,
`src/qo_textual.py`, `src/qo_personal.py`, `src/sse_manager.py`) that the
verified properties speak about.

Conventions of the embedding:
* Python `str` values are Lean `String`s; the character-level operations
  (`strip`, `upper`, `lower`, `\s`, `\w`) are modelled on the ASCII fragment,
  which covers every string the properties mention.
* Python `dict`s that the code only builds and passes around become Lean
  structures; a `dict.get(k, default)` chain becomes an `Option` lookup.
* Collaborator calls (OpenAI, the embedding API, Elasticsearch transport) are
  inputs: an `Env` record supplies the value each call returns, and the
  transport outcome of a search is an explicit `ESTransport` value.
* Exceptions are modelled by the value the enclosing `try/except` turns them
  into; ghost fields (documented below) record which branch produced a result.
-/

namespace StandardGPT

/-! ## Python string primitives (ASCII fragment) -/

/-- Python `\s` / `str.strip()` whitespace, ASCII fragment:
space, tab, newline, carriage return, vertical tab, form feed. -/
def isPySpace (c : Char) : Bool :=
  c == ' ' || c == '\t' || c == '\n' || c == '\r' || c == Char.ofNat 11 || c == Char.ofNat 12

/-- `str.strip()` on the character list. -/
def pyStripList (cs : List Char) : List Char :=
  ((cs.dropWhile isPySpace).reverse.dropWhile isPySpace).reverse

/-- Python `str.strip()`. -/
def pyStrip (s : String) : String :=
  ⟨pyStripList s.data⟩

/-- Python `str.upper()` (ASCII fragment). -/
def pyUpper (s : String) : String :=
  ⟨s.data.map Char.toUpper⟩

/-- Python `str.lower()` (ASCII fragment). -/
def pyLower (s : String) : String :=
  ⟨s.data.map Char.toLower⟩

/-- Python slicing `s[:n]`. -/
def pyTake (n : Nat) (s : String) : String :=
  ⟨s.data.take n⟩

/-- `pat in s` on character lists: some occurrence of `pat` as a contiguous
sublist. -/
def listContainsSub (pat cs : List Char) : Bool :=
  (List.range (cs.length + 1)).any fun i => pat.isPrefixOf (cs.drop i)

/-- Python `pat in s` (substring containment). -/
def pyContains (s pat : String) : Bool :=
  listContainsSub pat.data s.data

/-- Python `s.replace(old, new)` (all occurrences, left to right,
non-overlapping), on character lists. -/
def replaceAllList (pat rep : List Char) (cs : List Char) : List Char :=
  if hp : pat.isEmpty = true then cs
  else
    match cs with
    | [] => []
    | c :: t =>
      if pat.isPrefixOf (c :: t) then
        rep ++ replaceAllList pat rep ((c :: t).drop pat.length)
      else
        c :: replaceAllList pat rep t
termination_by cs.length
decreasing_by
  · simp only [List.length_drop, List.length_cons]
    have hpat : 0 < pat.length := by
      cases pat with
      | nil => simp [List.isEmpty] at hp
      | cons a l => simp
    omega
  · simp

/-- Python `s.replace(old, new)`. -/
def pyReplace (s pat rep : String) : String :=
  ⟨replaceAllList pat.data rep.data s.data⟩

/-- Python `s.replace(old, new, 1)` (first occurrence only), on character
lists. -/
def replaceFirstList (pat rep : List Char) : List Char → List Char
  | [] => []
  | c :: t =>
    if pat.isEmpty then c :: t
    else if pat.isPrefixOf (c :: t) then rep ++ (c :: t).drop pat.length
    else c :: replaceFirstList pat rep t

/-- Python `s.replace(old, new, 1)`. -/
def pyReplaceFirst (s pat rep : String) : String :=
  ⟨replaceFirstList pat.data rep.data s.data⟩

/-- Python `"sep".join`-like `String.intercalate`, defined structurally so the
kernel can evaluate it. -/
def joinWith (sep : String) : List String → String
  | [] => ""
  | [s] => s
  | s :: t => s ++ sep ++ joinWith sep t

/-- Python `s.split(':', 1)[0]`: everything before the first `':'`
(the whole string when there is none). -/
def beforeFirstColon (s : String) : String :=
  ⟨s.data.takeWhile (fun c => !(c == ':'))⟩

theorem dropWhile_length_le {α : Type} (p : α → Bool) (l : List α) :
    (l.dropWhile p).length ≤ l.length := by
  induction l with
  | nil => simp [List.dropWhile]
  | cons a t ih =>
    by_cases h : p a
    · simp only [List.dropWhile, h]
      exact Nat.le_trans ih (Nat.le_succ _)
    · simp [List.dropWhile, h]

/-- Collapse `\s+` runs to a single space, as `re.sub(r'\s+', ' ', s)` does. -/
def collapseWsList (cs : List Char) : List Char :=
  match cs with
  | [] => []
  | c :: t =>
    if isPySpace c then ' ' :: collapseWsList (t.dropWhile isPySpace)
    else c :: collapseWsList t
termination_by cs.length
decreasing_by
  · have := dropWhile_length_le isPySpace t
    simp only [List.length_cons]
    omega
  · simp

/-- `re.sub(r'\s+', ' ', s)`. -/
def collapseWs (s : String) : String :=
  ⟨collapseWsList s.data⟩

/-! ## `src/flow_manager.py` — `InputValidator`

`ValidationResult` is the dataclass of `flow_manager.py`; `sanitized_input`
holds a `str` for `validate_question` and a `list` for
`validate_standard_numbers`, so the embedding is parametrised by the payload
type. -/

structure ValidationResult (α : Type) where
  isValid : Bool
  errorMessage : Option String := none
  sanitizedInput : Option α := none
deriving Repr, DecidableEq

/-! ### The StandardNumber pattern

`validate_standard_numbers` matches cleaned candidates against
`r'^[A-Z]{1,10}[\s\-]?[0-9A-Z\-]{1,15}(?:[\:\+][0-9A-Z\-]{1,20})?$'`
(`re.match` plus `$`, i.e. full-string match; candidates are stripped so the
`$`-before-final-newline subtlety cannot arise).  The decision procedure below
decides membership in that regular language by enumerating the split
positions. -/

def isUpperLetter (c : Char) : Bool := 'A' ≤ c && c ≤ 'Z'

def isDigitChar (c : Char) : Bool := '0' ≤ c && c ≤ '9'

/-- The class `[0-9A-Z\-]`. -/
def isBodyChar (c : Char) : Bool := isUpperLetter c || isDigitChar c || c == '-'

/-- The class `[\s\-]`. -/
def isSepChar (c : Char) : Bool := isPySpace c || c == '-'

/-- The optional suffix `(?:[\:\+][0-9A-Z\-]{1,20})?` followed by `$`. -/
def suffixPartMatch : List Char → Bool
  | [] => true
  | c :: t => (c == ':' || c == '+') && 1 ≤ t.length && t.length ≤ 20 && t.all isBodyChar

/-- `[0-9A-Z\-]{1,15}` then the optional suffix, consuming the whole list. -/
def bodyThenSuffix (cs : List Char) : Bool :=
  (List.range 15).any fun j =>
    let n := j + 1
    n ≤ cs.length && (cs.take n).all isBodyChar && suffixPartMatch (cs.drop n)

/-- `[\s\-]?` then body and suffix. -/
def afterPrefixMatch (cs : List Char) : Bool :=
  bodyThenSuffix cs ||
    (match cs with
     | [] => false
     | c :: t => isSepChar c && bodyThenSuffix t)

/-- Full-string match of the StandardNumber pattern of
`InputValidator.validate_standard_numbers`. -/
def standardPatternMatch (s : String) : Bool :=
  let cs := s.data
  (List.range 10).any fun i =>
    let n := i + 1
    n ≤ cs.length && (cs.take n).all isUpperLetter && afterPrefixMatch (cs.drop n)

/-- The argument of `validate_standard_numbers`: the code guards against a
non-list argument and against non-`str` elements, so both are representable. -/
inductive StandardsArg where
  | notAList
  | ofList (entries : List (Option String))
deriving Repr, DecidableEq

/-- `InputValidator.validate_standard_numbers`.  A non-list or empty argument
yields `(True, [])`; otherwise each `str` element is stripped and upper-cased,
dropped when longer than 50 characters or failing the pattern, and kept
otherwise.  Every branch returns `is_valid=True`. -/
def validateStandardNumbers : StandardsArg → ValidationResult (List String)
  | .notAList => { isValid := true, sanitizedInput := some [] }
  | .ofList entries =>
    if entries.isEmpty then { isValid := true, sanitizedInput := some [] }
    else
      let sanitized := entries.foldl
        (fun acc e =>
          match e with
          | none => acc
          | some std =>
            let stdClean := pyUpper (pyStrip std)
            if stdClean.length > 50 then acc
            else if standardPatternMatch stdClean then acc ++ [stdClean]
            else acc)
        []
      { isValid := true, sanitizedInput := some sanitized }

/-! ### Dangerous-pattern scan of `validate_question`

The eleven `DANGEROUS_PATTERNS` regexes are searched (Python `re.search`)
over `question.lower()`.  Each is decided below; `\w` is `[a-zA-Z0-9_]`
(ASCII fragment) and `.` does not match a newline (no `re.DOTALL`). -/

def isWordChar (c : Char) : Bool :=
  ('a' ≤ c && c ≤ 'z') || ('A' ≤ c && c ≤ 'Z') || isDigitChar c || c == '_'

/-- `re.search(r'<script[^>]*>.*?</script>', s)`: an occurrence of
`<script`, then characters other than `>`, then `>`, then characters other
than a newline, then `</script>`. -/
def scriptTagSearch (cs : List Char) : Bool :=
  (List.range (cs.length + 1)).any fun i =>
    let t := cs.drop i
    "<script".data.isPrefixOf t &&
      (let u := t.drop 7
       (List.range (u.length + 1)).any fun j =>
         (u.take j).all (fun c => !(c == '>')) &&
           (match u.drop j with
            | [] => false
            | c :: v =>
              c == '>' &&
                (List.range (v.length + 1)).any fun k =>
                  (v.take k).all (fun c => !(c == '\n')) &&
                    "</script>".data.isPrefixOf (v.drop k)))

/-- `re.search(r'on\w+\s*=', s)`.  Since `\w`, `\s` and `=` are pairwise
disjoint, the greedy reading decides the search. -/
def eventHandlerSearch (cs : List Char) : Bool :=
  (List.range (cs.length + 1)).any fun i =>
    let t := cs.drop i
    "on".data.isPrefixOf t &&
      (let u := t.drop 2
       let w := u.takeWhile isWordChar
       1 ≤ w.length &&
         (match (u.drop w.length).dropWhile isPySpace with
          | [] => false
          | c :: _ => c == '='))

/-- `re.search(r'NAME\s*\(', s)` for a literal `NAME` (used for the
code-evaluation patterns). -/
def callLikeSearch (word : List Char) (cs : List Char) : Bool :=
  (List.range (cs.length + 1)).any fun i =>
    let t := cs.drop i
    word.isPrefixOf t &&
      (match (t.drop word.length).dropWhile isPySpace with
       | [] => false
       | c :: _ => c == '(')

/-- `re.search(r'NAME\s+', s)` for a literal `NAME`. -/
def wordThenSpaceSearch (word : List Char) (cs : List Char) : Bool :=
  (List.range (cs.length + 1)).any fun i =>
    let t := cs.drop i
    word.isPrefixOf t &&
      (match t.drop word.length with
       | [] => false
       | c :: _ => isPySpace c)

/-- `re.search(r'__\w+__', s)`. -/
def dunderSearch (cs : List Char) : Bool :=
  (List.range (cs.length + 1)).any fun i =>
    let t := cs.drop i
    "__".data.isPrefixOf t &&
      (let u := t.drop 2
       (List.range u.length).any fun j =>
         let n := j + 1
         n ≤ u.length && (u.take n).all isWordChar &&
           "__".data.isPrefixOf (u.drop n))

/-- The disjunction of the eleven `DANGEROUS_PATTERNS`, applied to the
lower-cased question. -/
def hasDangerousPattern (lowered : String) : Bool :=
  let cs := lowered.data
  scriptTagSearch cs ||
  listContainsSub "javascript:".data cs ||
  listContainsSub "data:text/html".data cs ||
  listContainsSub "vbscript:".data cs ||
  eventHandlerSearch cs ||
  callLikeSearch "eval".data cs ||
  callLikeSearch "exec".data cs ||
  wordThenSpaceSearch "import".data cs ||
  dunderSearch cs ||
  listContainsSub "../".data cs ||
  cs.any (fun c => c == '<' || c == '>' || c == '"' || c == Char.ofNat 39)

/-- The character class of
`r'^[a-zA-ZæøåÆØÅ0-9\s\-\.\,\?\!\:\;\(\)\[\]\/\+\*\=\%\&\#\@\_\~\`\^\$\|\\]*$'`. -/
def isAllowedChar (c : Char) : Bool :=
  ('a' ≤ c && c ≤ 'z') || ('A' ≤ c && c ≤ 'Z') ||
  c == 'æ' || c == 'ø' || c == 'å' || c == 'Æ' || c == 'Ø' || c == 'Å' ||
  isDigitChar c || isPySpace c ||
  "-.,?!:;()[]/+*=%&#@_~^$|\\".data.any (fun d => d == c) ||
  c == Char.ofNat 96

/-- `InputValidator.validate_question`.  The argument is a `str`; the Python
`not question` guard is the emptiness test. -/
def validateQuestion (question : String) : ValidationResult String :=
  if question.isEmpty then
    { isValid := false, errorMessage := some "Spørsmål må være en ikke-tom tekst" }
  else if (pyStrip question).length < 3 then
    { isValid := false, errorMessage := some "Spørsmål må være minst 3 tegn langt" }
  else if question.length > 1000 then
    { isValid := false, errorMessage := some "Spørsmål kan ikke være lengre enn 1000 tegn" }
  else if hasDangerousPattern (pyLower question) then
    { isValid := false,
      errorMessage := some "Spørsmål inneholder ikke-tillatte tegn eller mønstre" }
  else if !(question.data.all isAllowedChar) then
    { isValid := false,
      errorMessage := some "Spørsmål inneholder ikke-tillatte spesialtegn" }
  else
    { isValid := true, sanitizedInput := some (collapseWs (pyStrip question)) }

/-! ## `app.py` — per-session conversation memory

`conversation_sessions` maps a session id to a list of exchange dicts
`{'user', 'system', 'timestamp'}`; all access happens under
`conversation_lock`, so the store is a sequential value here.  The
`timestamp` field (`datetime.utcnow().isoformat()`) is write-only metadata
and is omitted from the embedding. -/

structure Exchange where
  user : String
  system : String
deriving Repr, DecidableEq

/-- The `conversation_sessions` dict. -/
def MemoryStore : Type := List (String × List Exchange)

/-- `session_id in conversation_sessions` / `conversation_sessions[sid]`. -/
def storeLookup (st : MemoryStore) (sid : String) : Option (List Exchange) :=
  match st with
  | [] => none
  | (k, v) :: t => if k = sid then some v else storeLookup t sid

/-- `conversation_sessions[sid] = v` (insert or overwrite). -/
def storeSet (st : MemoryStore) (sid : String) (v : List Exchange) : MemoryStore :=
  match st with
  | [] => [(sid, v)]
  | (k, w) :: t => if k = sid then (sid, v) :: t else (k, w) :: storeSet t sid v

/-- Python `l[-n:]`. -/
def takeLast {α : Type} (n : Nat) (l : List α) : List α :=
  l.drop (l.length - n)

/-- `update_conversation_memory(session_id, user_message, system_response)`:
creates the session when absent, appends the exchange with
`user_message.strip()` and `system_response.strip()[:1000]`, and keeps only
the last 5 exchanges. -/
def updateConversationMemory (st : MemoryStore) (sid userMessage systemResponse : String) :
    MemoryStore :=
  let history := (storeLookup st sid).getD []
  let userClean := pyStrip userMessage
  let systemClean := pyTake 1000 (pyStrip systemResponse)
  let history' := history ++ [⟨userClean, systemClean⟩]
  let history'' := if history'.length > 5 then takeLast 5 history' else history'
  storeSet st sid history''

/-- `entry['user'].replace('\n', ' ').replace('\r', ' ').strip()`. -/
def cleanForMemoryLine (s : String) : String :=
  pyStrip ⟨s.data.map (fun c => if c == '\n' || c == '\r' then ' ' else c)⟩

/-- `get_conversation_memory(session_id)`: the literal `"0"` for an absent or
empty session, otherwise the last five exchanges rendered as alternating
`USER: …` / `SYSTEM: …` lines joined by newlines. -/
def getConversationMemory (st : MemoryStore) (sid : String) : String :=
  match storeLookup st sid with
  | none => "0"
  | some history =>
    if history.isEmpty then "0"
    else
      let parts := (takeLast 5 history).foldl
        (fun acc e =>
          acc ++ ["USER: " ++ cleanForMemoryLine e.user, "SYSTEM: " ++ cleanForMemoryLine e.system])
        []
      joinWith "\n" parts

/-- `clear_conversation_memory(session_id)`. -/
def clearConversationMemory (st : MemoryStore) (sid : String) : MemoryStore :=
  st.filter (fun p => !(p.1 = sid : Bool))

/-- A sequence of `update_conversation_memory` calls
(session id, user message, system response) applied to the empty store. -/
def applyAppends (ops : List (String × String × String)) : MemoryStore :=
  ops.foldl (fun st op => updateConversationMemory st op.1 op.2.1 op.2.2) []

/-- The exchange an append op stores for its session. -/
def storedExchange (op : String × String × String) : Exchange :=
  ⟨pyStrip op.2.1, pyTake 1000 (pyStrip op.2.2)⟩

/-! ## `src/prompt_manager.py` — cache-key derivation and the prompt cache

`_generate_cache_key(prompt_type, content, **kwargs)` builds the dict
`cache_data = {type, content, kwargs}`, adds `memory_hash`
(`hashlib.md5(memory).hexdigest()[:8]`) when `kwargs` carries a non-trivial
`conversation_memory`, adds `memory_context=True` for the `answer` namespace,
and returns `md5(json.dumps(cache_data, sort_keys=True)).hexdigest()`.

The embedding represents a key by the payload that is digested: `CacheKey`
below is `cache_data` itself.  The final MD5-of-canonical-JSON step maps
distinct payloads to distinct hex keys up to MD5 collisions, which the code
assumes away and a shallow embedding cannot decide; every statement about
key (in)equality is therefore made at the payload level.  The short hash
`hashlib.md5(...).hexdigest()[:8]` is an external library function and is
passed in as the parameter `md5short`. -/

/-- The `**kwargs` of a prompt-cache request.  `conversation_memory` is the
one entry `_generate_cache_key` inspects; the remaining keyword arguments are
carried opaquely. -/
structure KwArgs where
  conversationMemory : Option String := none
  rest : List (String × String) := []
deriving Repr, DecidableEq

/-- `kwargs.get("conversation_memory", "")`. -/
def KwArgs.memory (k : KwArgs) : String :=
  k.conversationMemory.getD ""

/-- The `cache_data` payload whose canonical JSON is MD5-digested into the
cache key. -/
structure CacheKey where
  promptType : String
  content : String
  kwargs : KwArgs
  memoryHash : Option String
  memoryContext : Bool
deriving Repr, DecidableEq

/-- `PromptManager._generate_cache_key`.  `md5short` stands for
`lambda m: hashlib.md5(m.encode()).hexdigest()[:8]`. -/
def generateCacheKey (md5short : String → String) (promptType content : String)
    (kwargs : KwArgs) : CacheKey :=
  let conversationMemory := kwargs.memory
  let memoryHash : Option String :=
    if conversationMemory ≠ "" ∧ conversationMemory ≠ "0" then some (md5short conversationMemory)
    else none
  let memoryContext : Bool :=
    if promptType = "answer" ∧ conversationMemory ≠ "" ∧ conversationMemory ≠ "0" then true
    else false
  { promptType, content, kwargs, memoryHash, memoryContext }

/-- The `self.cache` dict of `PromptManager`, keyed by derived cache keys.
`CacheEntry` metadata (creation time, hit count) is irrelevant to key
isolation and elided; the stored value is kept. -/
def PromptCache : Type := List (CacheKey × String)

/-- `self.cache[cache_key] = CacheEntry(value)` (`_set_cache`): insert with
shadowing, i.e. dict overwrite. -/
def setCache (c : PromptCache) (k : CacheKey) (v : String) : PromptCache :=
  (k, v) :: c

/-- The value `_get_from_cache` consults for a key (dict lookup; the TTL test
then decides between this value and a miss, and cannot un-miss an absent
key). -/
def lookupCache (c : PromptCache) (k : CacheKey) : Option String :=
  match c with
  | [] => none
  | (k', v) :: t => if k' = k then some v else lookupCache t k

/-! ## `src/elasticsearch_client.py` — search and chunk formatting

The `_score` of a hit is a float that `format_chunks` only interpolates as
`f"{score:.2f}"`; floats are not representable in the embedding, so a hit
carries its rendered score string (`"0.00"` for the `hit.get("_score", 0)`
default). -/

/-- A hit's `_source` dict.  `format_chunks` reads `text`/`content`,
`reference`/`title` and `page`/`page_number` with fallbacks; absent keys are
`none`. -/
structure ESSource where
  text : Option String := none
  content : Option String := none
  reference : Option String := none
  title : Option String := none
  page : Option String := none
  pageNumber : Option String := none
deriving Repr, DecidableEq

structure ESHit where
  /-- The rendered `f"{hit.get('_score', 0):.2f}"` value. -/
  score : String := "0.00"
  source : ESSource := {}
deriving Repr, DecidableEq

structure ESTotal where
  value : Nat
  relation : String := "eq"
deriving Repr, DecidableEq

structure ESHitsBlock where
  total : ESTotal
  hits : List ESHit
deriving Repr, DecidableEq

/-- The response dict of `ElasticsearchClient.search` (`max_score` is carried
nowhere and elided). -/
structure ESResponse where
  took : Nat := 0
  timedOut : Bool := false
  hits : ESHitsBlock
deriving Repr, DecidableEq

/-- Outcome of the `requests.post` transport for one search call:
an exception (timeout, connection error, JSON error) or a response with an
HTTP status and, for status 200, a parsed body. -/
inductive ESTransport where
  | failure
  | response (status : Nat) (body : ESResponse)
deriving Repr, DecidableEq

/-- The empty result `search` builds when the request or the status check
fails (`hits.total.value = 0`, empty hits array). -/
def emptySearchResponse (tookMs : Nat) : ESResponse :=
  { took := tookMs, timedOut := true, hits := { total := { value := 0, relation := "eq" }, hits := [] } }

/-- `ElasticsearchClient.search`: a 200 response is returned as parsed; any
transport exception, and any non-200 status (which raises and is caught by
the same handler), produces `emptySearchResponse` instead of an error. -/
def searchResult (t : ESTransport) (tookMs : Nat) : ESResponse :=
  match t with
  | .failure => emptySearchResponse tookMs
  | .response status body =>
    if status = 200 then body else emptySearchResponse tookMs

/-- `source.get("text", source.get("content", "Ingen tekst tilgjengelig"))`. -/
def sourceText (s : ESSource) : String :=
  (s.text.or s.content).getD "Ingen tekst tilgjengelig"

/-- `source.get("reference", source.get("title", "Ukjent referanse"))`. -/
def sourceReference (s : ESSource) : String :=
  (s.reference.or s.title).getD "Ukjent referanse"

/-- `source.get("page", source.get("page_number", "Ukjent side"))`. -/
def sourcePage (s : ESSource) : String :=
  (s.page.or s.pageNumber).getD "Ukjent side"

/-- The per-hit truncation of `format_chunks`:
`if len(text) > 2000: text = text[:1800] + "..."`. -/
def renderHitText (s : ESSource) : String :=
  let t := sourceText s
  if t.length > 2000 then pyTake 1800 t ++ "..." else t

/-- One formatted chunk (`i` is the 1-based `enumerate` index). -/
def renderChunk (i : Nat) (h : ESHit) : String :=
  "Dokument " ++ toString i ++ " (score: " ++ h.score ++ "):\n" ++
  "Referanse: " ++ sourceReference h.source ++ "\n" ++
  "Side: " ++ sourcePage h.source ++ "\n" ++
  "Innhold: " ++ renderHitText h.source ++ "\n" ++
  "---"

/-- The accumulation loop of `format_chunks`: before each hit the running
total (`total_text_length`, the sum of the lengths of the chunks already
emitted, separators not counted) is compared against 200000 and the loop
breaks when it exceeds it; otherwise the chunk is emitted and counted. -/
def chunksLoop (i : Nat) (total : Nat) : List ESHit → List String
  | [] => []
  | h :: rest =>
    if total > 200000 then []
    else
      let c := renderChunk i h
      c :: chunksLoop (i + 1) (total + c.length) rest

/-- `ElasticsearchClient.format_chunks`: the literal
`"Ingen relevante dokumenter funnet."` for zero hits, otherwise the emitted
chunks joined by blank lines. -/
def formatChunks (resp : ESResponse) : String :=
  let hits := resp.hits.hits
  if hits.isEmpty then "Ingen relevante dokumenter funnet."
  else joinWith "\n\n" (chunksLoop 1 0 hits)

/-! ## Query objects (`src/qo_filter.py`, `src/qo_textual.py`,
`src/qo_personal.py`, `src/query_builders.py`)

Embeddings vectors are lists of floats that the builders only test against
`0.0` and pass through; they are modelled as `List Int` with `none` for
Python `None`. -/

/-- The inner query expression of a query object. -/
inductive InnerQuery where
  /-- `bool.should` of one `{"wildcard": {"reference.keyword": {"value": v,
  "case_insensitive": true}}}` clause per listed value, plus
  `minimum_should_match`. -/
  | boolShouldWildcards (values : List String) (minimumShouldMatch : Nat)
  /-- `{"multi_match": {"query": q, "fields": fields}}`. -/
  | multiMatch (query : String) (fields : List String)
  /-- `bool.filter` of one wildcard on `reference.keyword`. -/
  | boolFilterWildcard (value : String) (caseInsensitive : Bool)
deriving Repr, DecidableEq

/-- The root query: the inner expression alone, or wrapped in `script_score`
with the cosine-similarity script and the query vector. -/
inductive ESQuery where
  | plain (inner : InnerQuery)
  | scriptScore (inner : InnerQuery) (scriptSource : String) (queryVector : List Int)
deriving Repr, DecidableEq

structure QueryObject where
  size : Nat
  query : ESQuery
  sourceFields : List String
deriving Repr, DecidableEq

def cosineScript : String := "cosineSimilarity(params.query_vector, 'vector') + 1.0"

def esSourceFields : List String := ["text", "reference", "page"]

/-- `re.search(r'([0-9][0-9A-Z\-]+)', base)` in `_standard_variants`:
the leftmost digit followed by at least one `[0-9A-Z\-]` character, extended
greedily. -/
def numericFragment : List Char → Option (List Char)
  | [] => none
  | c :: t =>
    if isDigitChar c then
      let run := t.takeWhile isBodyChar
      if run.isEmpty then numericFragment t else some (c :: run)
    else numericFragment t

/-- `qo_filter._standard_variants`: robust wildcard variants for one standard
reference, deduplicated with order preserved and empties dropped. -/
def standardVariants (standard : String) : List String :=
  let s := pyStrip standard
  if s.isEmpty then []
  else
    let base := s
    let variants :=
      (if pyContains base ":" then [pyStrip (beforeFirstColon base)] else []) ++
      [base] ++
      [pyStrip (pyReplaceFirst base "NS-" "")] ++
      [pyStrip (pyReplaceFirst base "NS " "")] ++
      [pyReplace (pyReplace base "NS-EN" "EN") "NS EN" "EN"] ++
      [pyReplace base "NS-EN" "NS EN"] ++
      [pyReplace (pyReplace base "EN-" "EN ") "NS-" "NS "] ++
      (match numericFragment base.data with
       | some frag => [⟨frag⟩]
       | none => [])
    variants.foldl
      (fun out v =>
        let v := pyStrip v
        if v = "" then out
        else if v ∈ out then out
        else out ++ [v])
      []

/-- `qo_filter.create_query`: one wildcard value `*variant*` per robust
variant of each standard; `script_score` wrapping exactly when the embeddings
list is non-`None`, non-empty and has a non-zero coordinate. -/
def qoFilterCreateQuery (standardNumbers : List String) (question : String)
    (embeddings : Option (List Int)) : QueryObject :=
  let values := standardNumbers.flatMap
    (fun std => (standardVariants std).map (fun v => "*" ++ pyStrip v ++ "*"))
  let inner := InnerQuery.boolShouldWildcards values 1
  match embeddings with
  | some e =>
    if e.any (fun x => !(x = 0 : Bool)) then
      { size := 40, query := .scriptScore inner cosineScript e, sourceFields := esSourceFields }
    else
      { size := 40, query := .plain inner, sourceFields := esSourceFields }
  | none => { size := 40, query := .plain inner, sourceFields := esSourceFields }

/-- `qo_textual.create_query`. -/
def qoTextualCreateQuery (text : String) (embeddings : Option (List Int)) : QueryObject :=
  let inner := InnerQuery.multiMatch text ["text^2", "reference"]
  match embeddings with
  | some e =>
    if e.any (fun x => !(x = 0 : Bool)) then
      { size := 80, query := .scriptScore inner cosineScript e, sourceFields := esSourceFields }
    else
      { size := 80, query := .plain inner, sourceFields := esSourceFields }
  | none => { size := 80, query := .plain inner, sourceFields := esSourceFields }

/-- `QueryObjectBuilder.build_filter_query` for a list argument: strips the
entries, drops the blank ones, and delegates to `qo_filter.create_query`. -/
def buildFilterQuery (standardNumbers : List String) (lastUtterance : String)
    (embeddings : Option (List Int)) : QueryObject :=
  let standards := (standardNumbers.filter (fun s => !(pyStrip s = "" : Bool))).map pyStrip
  qoFilterCreateQuery standards lastUtterance embeddings

/-- `QueryObjectBuilder.build_textual_query`. -/
def buildTextualQuery (optimizedText : String) (embeddings : Option (List Int)) : QueryObject :=
  qoTextualCreateQuery optimizedText embeddings

/-- The Python error text of the `TypeError` raised by
`qo_personal.create_query(text=..., embeddings=...)`: the module's function
signature is `create_query(question, embeddings=None)`, so the keyword
argument `text` used by `QueryObjectBuilder.build_personal_query` does not
exist. -/
def personalTypeErrorText : String :=
  "create_query() got an unexpected keyword argument 'text'"

/-- `QueryObjectBuilder.build_personal_query`: the delegated call raises
`TypeError` (see `personalTypeErrorText`), which the method logs and
re-raises. -/
def buildPersonalQuery (lastUtterance : String) (embeddings : Option (List Int)) :
    Except String QueryObject :=
  .error personalTypeErrorText

/-- The Python error text of the `AttributeError` raised by
`self.query_builder.build_memory_query(...)`: `QueryObjectBuilder` defines no
such method. -/
def memoryAttributeErrorText : String :=
  "'QueryObjectBuilder' object has no attribute 'build_memory_query'"

/-! ## `src/flow_manager.py` — `FlowManager.process_query`

The collaborators the orchestrator awaits (the `PromptManager` LLM calls,
the embedding client, the Elasticsearch transport) are inputs of the run,
collected in `Env`; each field is the value the corresponding call returns
for given arguments.  `extract_standard_numbers` / `extract_from_memory`
return lists (the orchestrator's `isinstance` normalisation of a stray
string is subsumed by the list-valued oracle); `analyze_question` and
`optimize_textual` catch their own exceptions and always return a string;
`generate_answer` re-raises, so it is an `Except` (the error text is the
message of the raised exception, which the orchestrator's generic handler
interpolates). -/

structure Env where
  /-- `prompt_manager.optimize_semantic(question, conversation_memory)`. -/
  optimizedOf : String → String → String
  /-- `prompt_manager.analyze_question(question, conversation_memory)`. -/
  analysisOf : String → String → String
  /-- `prompt_manager.extract_standard_numbers(question)`. -/
  extractStandardOf : String → List String
  /-- `prompt_manager.extract_from_memory(question, conversation_memory)`. -/
  extractFromMemoryOf : String → String → List String
  /-- `prompt_manager.optimize_textual(question, conversation_memory)`. -/
  optimizeTextualOf : String → String → String
  /-- `elasticsearch_client.get_embeddings_from_api(optimized)`:
  `none` models both an exception and a `None` return. -/
  embeddingsOf : String → Option (List Int)
  /-- The transport outcome of `elasticsearch_client.search(query_object)`. -/
  searchOf : QueryObject → ESTransport
  /-- `prompt_manager.generate_answer(question, chunks, conversation_memory)`. -/
  answerOf : String → String → String → Except String String
  /-- `prompt_manager.generate_answer_stream(...)`: the streamed tokens, or
  `none` when streaming raises. -/
  streamOf : String → String → String → Option (List String)
  /-- `generate_answer` as the streaming fallback of
  `process_query_with_sse` (`none` when it, too, raises). -/
  fallbackOf : String → String → String → Option String
  /-- `str(fallback_error)` for the doubly-failed answer generation. -/
  fallbackErrorMsg : String

/-- Ghost tag recording which branch of the orchestrator produced a result. -/
inductive ErrKind where
  | validationFailed
  | standardsValidationFailed
  | buildMemoryAttributeError
  | buildPersonalTypeError
  | answerGenerationFailed
  | embeddingsUnavailable
deriving Repr, DecidableEq

/-- The dict `process_query` / `process_query_with_sse` returns, plus ghost
instrumentation.  `success` is the optional `"success"` key (absent on the
validation-failure dict), `errorFlag` the SSE paths' `"error": True`;
`errorKind`, `routeDecided` and `queriesIssued` are ghost fields recording
the producing branch, the route fixed in the routing phase, and the query
objects submitted to `ElasticsearchClient.search`, in order. -/
structure FlowResult where
  answer : String
  success : Option Bool := none
  errorFlag : Bool := false
  routeTaken : Option String := none
  standardNumbers : List String := []
  memoryTerms : List String := []
  memoryFallback : Bool := false
  chunks : Option String := none
  errorKind : Option ErrKind := none
  routeDecided : Option String := none
  queriesIssued : List QueryObject := []
deriving Repr, DecidableEq

def genericErrorPrefix : String :=
  "Beklager, det oppstod en feil under behandling av spørsmålet: "

/-- Phases 6–7 of `process_query`: search, chunk formatting, answer
generation, and the final result dict (or the generic exception dict when
`generate_answer` raises). -/
def processQueryFinish (env : Env) (sq mem route : String)
    (resultStandards resultMemoryTerms : List String) (memoryFallback : Bool)
    (qo : QueryObject) : FlowResult :=
  let resp := searchResult (env.searchOf qo) 0
  let chunks := formatChunks resp
  match env.answerOf sq chunks mem with
  | .error e =>
    { answer := genericErrorPrefix ++ e,
      success := some false, errorKind := some .answerGenerationFailed,
      routeDecided := some route, queriesIssued := [qo] }
  | .ok answer =>
    { answer := answer, success := some true, routeTaken := some route,
      standardNumbers := resultStandards, memoryTerms := resultMemoryTerms,
      memoryFallback := memoryFallback, chunks := some chunks,
      routeDecided := some route, queriesIssued := [qo] }

/-- Phase 4 of `process_query`: `embeddings` is kept when the call returns a
non-empty list and is `None` after an exception or an empty result. -/
def embeddingsPhase (env : Env) (optimized : String) : Option (List Int) :=
  match env.embeddingsOf optimized with
  | some v => if v.length > 0 then some v else none
  | none => none

/-- Phases 4–7 of `process_query` (embeddings, query building, search,
answer) for a decided route. -/
def processQueryDispatch (env : Env) (sq mem optimized route : String)
    (resultStandards resultMemoryTerms : List String)
    (memoryFallback : Bool) : FlowResult :=
  let emb : Option (List Int) := embeddingsPhase env optimized
  if route = "memory" then
    -- `self.query_builder.build_memory_query(...)`: `QueryObjectBuilder` has
    -- no such method, so the call raises `AttributeError`, handled by the
    -- generic `except` of `process_query`.
    { answer := genericErrorPrefix ++ memoryAttributeErrorText,
      success := some false, errorKind := some .buildMemoryAttributeError,
      routeDecided := some "memory" }
  else if route = "including" then
    let qo := buildFilterQuery resultStandards sq emb
    processQueryFinish env sq mem route resultStandards resultMemoryTerms memoryFallback qo
  else if route = "without" then
    let optimizedText := env.optimizeTextualOf sq mem
    let qo := buildTextualQuery optimizedText emb
    processQueryFinish env sq mem route resultStandards resultMemoryTerms memoryFallback qo
  else
    match buildPersonalQuery sq emb with
    | .error e =>
      { answer := genericErrorPrefix ++ e,
        success := some false, errorKind := some .buildPersonalTypeError,
        routeDecided := some "personal" }
    | .ok qo =>
      processQueryFinish env sq mem route resultStandards resultMemoryTerms memoryFallback qo

/-- Phase 3 of `process_query` (the routing decision), entered with the
post-validation state: `analysis` (after any memory fallback), the raw
extracted `standard_numbers`, the validated `result["standard_numbers"]` and
`result["memory_terms"]`, and the recorded `memory_fallback` flag.  Note the
`including` test reads the RAW extracted list while the builder receives the
validated one. -/
def processQueryRouting (env : Env) (sq mem optimized analysis : String)
    (rawStandards resultStandards resultMemoryTerms : List String)
    (memoryFallback : Bool) : FlowResult :=
  let route :=
    if pyLower analysis = "memory" ∧ ¬resultMemoryTerms.isEmpty then "memory"
    else if pyLower analysis = "including" ∧ ¬rawStandards.isEmpty then "including"
    else if pyContains (pyLower analysis) "personal" ∨ pyContains (pyLower analysis) "personalhåndbok"
      then "personal"
    else "without"
  processQueryDispatch env sq mem optimized route resultStandards resultMemoryTerms memoryFallback

/-- The term-validation phase of `process_query` (the block after
extraction): memory terms fall back to textual search when invalid, standard
numbers return the standards-error dict when invalid. -/
def processQueryValidationPhase (env : Env) (sq mem optimized analysis : String)
    (rawStandards memoryTerms : List String) (memoryFallback : Bool) : FlowResult :=
  if pyLower analysis = "memory" then
    let v := validateStandardNumbers (.ofList (memoryTerms.map some))
    if v.isValid = false then
      processQueryRouting env sq mem optimized "without" rawStandards [] [] true
    else
      processQueryRouting env sq mem optimized analysis rawStandards []
        (v.sanitizedInput.getD []) memoryFallback
  else
    let v := validateStandardNumbers (.ofList (rawStandards.map some))
    if v.isValid = false then
      { answer := "Beklager, det oppstod en feil under behandling av standardene. Vennligst prøv igjen senere.",
        errorKind := some .standardsValidationFailed }
    else
      processQueryRouting env sq mem optimized analysis rawStandards
        (v.sanitizedInput.getD []) [] memoryFallback

/-- `FlowManager.process_query(question, conversation_memory)`. -/
def processQuery (env : Env) (question conversationMemory : String) : FlowResult :=
  let vr := validateQuestion question
  if vr.isValid = false then
    { answer := vr.errorMessage.getD "", errorKind := some .validationFailed }
  else
    let sq := vr.sanitizedInput.getD ""
    let optimized := env.optimizedOf sq conversationMemory
    let analysis := env.analysisOf sq conversationMemory
    if pyLower analysis = "memory" then
      let memoryTerms := env.extractFromMemoryOf sq conversationMemory
      if memoryTerms.isEmpty then
        processQueryValidationPhase env sq conversationMemory optimized "without" [] [] true
      else
        processQueryValidationPhase env sq conversationMemory optimized analysis [] memoryTerms false
    else
      processQueryValidationPhase env sq conversationMemory optimized analysis
        (env.extractStandardOf sq) [] false

/-! ## `src/flow_manager.py` — `FlowManager.process_query_with_sse`

The SSE path publishes events through `sse_manager`; each `send_progress` /
`send_token` / `send_final_answer` / `send_error` call appends one event to
the session, and every one of them is guarded by `if session_id:` (modelled
by the `hasSession` flag).  `SSEManager.send_progress` wraps its arguments
unchanged into a `'progress'` event, so the event stream below is exactly
the sequence of published events, in publication order. -/

inductive SSEEvent where
  | progress (stage message : String) (percent : Nat) (emoji : String)
  | token (text : String) (isFinal : Bool)
  | finalAnswer (answer : String)
  | errorEvent (message : String)
deriving Repr, DecidableEq

def emitIf (hasSession : Bool) (ev : SSEEvent) : List SSEEvent :=
  if hasSession then [ev] else []

/-- `''.join(answer_tokens)`. -/
def joinAll (tokens : List String) : String :=
  tokens.foldl (fun a t => a ++ t) ""

/-- The answer text used when both streaming and the fallback generation
raise (`msg` is `str(fallback_error)`). -/
def fallbackFailureText (msg : String) : String :=
  "Det oppstod en teknisk feil under svargenerering. Prøv å spørre på nytt eller kontakt support hvis problemet vedvarer. (Feil: " ++ msg ++ ")"

/-- STEG 11 of `process_query_with_sse`: the completion events and the
success dict. -/
def sseComplete (hasSession : Bool) (route : String)
    (standards memoryTerms : List String) (qo : QueryObject) (chunks answer : String)
    (acc : List SSEEvent) : FlowResult × List SSEEvent :=
  let acc := acc ++ emitIf hasSession (.progress "complete" "Svar generert!" 100 "✅")
  let acc := acc ++ emitIf hasSession (.finalAnswer answer)
  ({ answer := answer, success := some true, routeTaken := some route,
     standardNumbers := standards, memoryTerms := memoryTerms,
     chunks := some chunks, routeDecided := some route, queriesIssued := [qo] },
   acc)

/-- STEG 8–11 of `process_query_with_sse`: search, chunk formatting,
streamed answer generation with its two-level fallback, completion.  The
`if not elasticsearch_response:` guard never fires because both branches of
`search` return a populated dict, so it is not represented. -/
def sseFinish (env : Env) (hasSession : Bool) (sq mem route : String)
    (standards memoryTerms : List String) (qo : QueryObject)
    (acc : List SSEEvent) : FlowResult × List SSEEvent :=
  let acc := acc ++ emitIf hasSession (.progress "search" "Søker i standarddatabase..." 70 "🔎")
  let acc := acc ++ emitIf hasSession (.progress "routing" "Søkestrategi valgt!" 100 "🛣️")
  let resp := searchResult (env.searchOf qo) 0
  let acc := acc ++ emitIf hasSession (.progress "search" "Formaterer søkeresultater..." 80 "📄")
  let chunks := formatChunks resp
  let acc := acc ++ emitIf hasSession (.progress "search" "Søk fullført!" 100 "🔎")
  let acc := acc ++ emitIf hasSession (.progress "answer_generation" "Genererer svar..." 85 "✨")
  match env.streamOf sq chunks mem with
  | some tokens =>
    let acc := acc ++ (if hasSession then tokens.map (fun t => SSEEvent.token t false) else [])
    sseComplete hasSession route standards memoryTerms qo chunks (joinAll tokens) acc
  | none =>
    let acc := acc ++
      emitIf hasSession (.progress "answer_generation" "Streaming feilet, bruker vanlig generering..." 90 "⚠️")
    match env.fallbackOf sq chunks mem with
    | some answer => sseComplete hasSession route standards memoryTerms qo chunks answer acc
    | none =>
      sseComplete hasSession route standards memoryTerms qo chunks
        (fallbackFailureText env.fallbackErrorMsg) acc

/-- STEG 7 of `process_query_with_sse`: query building per route.  The
`memory` and `personal` branches raise (`AttributeError` / `TypeError`) into
the outer `except`, which publishes `Feil under behandling: …` and returns
the error dict. -/
def sseBuild (env : Env) (hasSession : Bool) (sq mem route : String)
    (standards memoryTerms : List String) (emb : List Int)
    (acc : List SSEEvent) : FlowResult × List SSEEvent :=
  let acc := acc ++ emitIf hasSession (.progress "search" "Bygger søkespørring..." 60 "🔧")
  if route = "memory" then
    let msg := "Feil under behandling: " ++ memoryAttributeErrorText
    ({ answer := msg, errorFlag := true, errorKind := some .buildMemoryAttributeError,
       routeDecided := some "memory" },
     acc ++ emitIf hasSession (.errorEvent msg))
  else if route = "including" then
    let v := validateStandardNumbers (.ofList (standards.map some))
    if v.isValid = false then
      let msg := "Standard validation failed: " ++ (v.errorMessage.getD "")
      ({ answer := msg, errorFlag := true, errorKind := some .standardsValidationFailed },
       acc ++ emitIf hasSession (.errorEvent msg))
    else
      let qo := buildFilterQuery (v.sanitizedInput.getD []) sq (some emb)
      sseFinish env hasSession sq mem route standards memoryTerms qo acc
  else if route = "without" then
    let optimizedText := env.optimizeTextualOf sq mem
    let qo := buildTextualQuery optimizedText (some emb)
    sseFinish env hasSession sq mem route standards memoryTerms qo acc
  else
    match buildPersonalQuery sq (some emb) with
    | .error e =>
      let msg := "Feil under behandling: " ++ e
      ({ answer := msg, errorFlag := true, errorKind := some .buildPersonalTypeError,
         routeDecided := some "personal" },
       acc ++ emitIf hasSession (.errorEvent msg))
    | .ok qo => sseFinish env hasSession sq mem route standards memoryTerms qo acc

/-- STEG 5–7 of `process_query_with_sse` for a decided route: the routing
and extraction-complete events, the embeddings step with its error return,
then query building. -/
def sseEmbedPhase (env : Env) (hasSession : Bool) (sq mem optimized route : String)
    (standards memoryTerms : List String) (acc : List SSEEvent) :
    FlowResult × List SSEEvent :=
  let acc := acc ++
    emitIf hasSession (.progress "routing" ("Velger søkestrategi: " ++ route ++ "...") 40 "🛣️")
  let acc := acc ++ emitIf hasSession (.progress "extraction" "Standarder uttrukket!" 100 "📊")
  let acc := acc ++ emitIf hasSession (.progress "search" "Genererer embeddings..." 50 "🧮")
  match env.embeddingsOf optimized with
  | none =>
    let msg := "Kunne ikke generere embeddings"
    ({ answer := msg, errorFlag := true, errorKind := some .embeddingsUnavailable },
     acc ++ emitIf hasSession (.errorEvent msg))
  | some emb =>
    if emb.isEmpty then
      let msg := "Kunne ikke generere embeddings"
      ({ answer := msg, errorFlag := true, errorKind := some .embeddingsUnavailable },
       acc ++ emitIf hasSession (.errorEvent msg))
    else
      sseBuild env hasSession sq mem route standards memoryTerms emb acc

/-- `FlowManager.process_query_with_sse(question, conversation_memory,
session_id)`: the returned dict together with the events published to the
session, in publication order. -/
def processQuerySSE (env : Env) (question conversationMemory : String) (hasSession : Bool) :
    FlowResult × List SSEEvent :=
  let acc := emitIf hasSession (.progress "started" "Starter behandling av spørsmål..." 5 "🚀")
  let acc := acc ++ emitIf hasSession (.progress "validation" "Validerer inndata..." 10 "🔒")
  let vr := validateQuestion question
  if vr.isValid = false then
    let msg := vr.errorMessage.getD ""
    ({ answer := msg, errorFlag := true, errorKind := some .validationFailed },
     acc ++ emitIf hasSession (.errorEvent msg))
  else
    let sq := vr.sanitizedInput.getD ""
    let acc := acc ++ emitIf hasSession (.progress "validation" "Inndata validert!" 100 "🔒")
    let acc := acc ++ emitIf hasSession (.progress "analysis" "Analyserer spørsmål..." 20 "🔍")
    let optimized := env.optimizedOf sq conversationMemory
    let analysis := env.analysisOf sq conversationMemory
    let acc := acc ++ emitIf hasSession (.progress "analysis" "Spørsmål analysert!" 100 "🔍")
    let acc := acc ++ emitIf hasSession (.progress "extraction" "Trekker ut standarder..." 30 "📊")
    let triple :=
      if pyLower analysis = "memory" then
        (env.extractFromMemoryOf sq conversationMemory, ([] : List String), "memory")
      else
        let standards := env.extractStandardOf sq
        let route :=
          if pyLower analysis = "including" ∧ ¬standards.isEmpty then "including"
          else if pyContains (pyLower analysis) "personal" ∨
              pyContains (pyLower analysis) "personalhåndbok" then "personal"
          else "without"
        (([] : List String), standards, route)
    sseEmbedPhase env hasSession sq conversationMemory optimized triple.2.2 triple.2.1 triple.1 acc

/-- The percent values of the `'progress'` events of a published stream, in
order. -/
def progressPercents (evs : List SSEEvent) : List Nat :=
  evs.filterMap fun ev =>
    match ev with
    | .progress _ _ p _ => some p
    | _ => none

/-! ## Concrete fixtures used by witnesses and counterexamples -/

/-- A search body with zero hits (`hits.total.value = 0`, empty array). -/
def zeroHitResponse : ESResponse :=
  { hits := { total := { value := 0 }, hits := [] } }

/-- A one-hit search body. -/
def oneHitResponse : ESResponse :=
  { hits := { total := { value := 1 },
              hits := [{ score := "1.00",
                         source := { text := some "Krav til ventilasjon.",
                                     reference := some "NS 99999",
                                     page := some "4" } }] } }

/-- An environment whose collaborators answer deterministically: analysis
routes to `including`, extraction finds `NS 99999`, the search transport
returns a 200 response with zero hits, and answer generation succeeds. -/
def sampleEnv : Env :=
  { optimizedOf := fun _ _ => "optimalisert",
    analysisOf := fun _ _ => "including",
    extractStandardOf := fun _ => ["NS 99999"],
    extractFromMemoryOf := fun _ _ => [],
    optimizeTextualOf := fun _ _ => "tekstsøk",
    embeddingsOf := fun _ => some [1, 2],
    searchOf := fun _ => .response 200 zeroHitResponse,
    answerOf := fun _ _ _ => .ok "Svar.",
    streamOf := fun _ _ _ => some ["Sv", "ar."],
    fallbackOf := fun _ _ _ => some "Svar.",
    fallbackErrorMsg := "feil" }

/-- `sampleEnv` with the analysis routed to `memory` and memory terms
extracted. -/
def memorySampleEnv : Env :=
  { sampleEnv with
    analysisOf := fun _ _ => "memory",
    extractFromMemoryOf := fun _ _ => ["NS 3457-7"] }

/-- The per-element cleaning of `validate_standard_numbers`: strip,
upper-case, drop when over 50 characters or failing the pattern (and drop
non-`str` elements). -/
def cleanStandardEntry (e : Option String) : Option String :=
  e.bind fun raw =>
    let c := pyUpper (pyStrip raw)
    if c.length ≤ 50 ∧ standardPatternMatch c = true then some c else none

/-- The exchanges a sequence of append ops stores for one session. -/
def appendsFor (ops : List (String × String × String)) (sid : String) : List Exchange :=
  (ops.filter (fun op => op.1 = sid)).map storedExchange

/-- The percent trace `process_query_with_sse` publishes on a run that
reaches completion. -/
def expectedSSEPercents : List Nat :=
  [5, 10, 100, 20, 100, 30, 40, 100, 50, 60, 70, 100, 80, 100, 85, 100]

/-- Total length of a list of chunks, separators not counted (the
`total_text_length` accumulator of `format_chunks`). -/
def sumLens (l : List String) : Nat :=
  (l.map String.length).sum

/-- A hit with every `_source` key absent and the default score. -/
def defaultHit : ESHit := {}

/-- A 1900-character text: longer than the claimed 1800-character truncation
threshold, not longer than the code's 2000-character one. -/
def t1900 : String := ⟨List.replicate 1900 'a'⟩

def srcT1900 : ESSource := { text := some t1900 }

/-- A 300000-character reference field: `format_chunks` bounds only the
`text` field and the cumulative pre-chunk total, so one such hit makes the
output exceed 200 KB. -/
def refBig : String := ⟨List.replicate 300000 'R'⟩

def hitBig : ESHit :=
  { score := "1.00",
    source := { text := some "x", reference := some refBig, page := some "1" } }

def respBig : ESResponse :=
  { hits := { total := { value := 1 }, hits := [hitBig] } }

/-! ## Helper lemmas -/

theorem validateStandardNumbers_isValid (a : StandardsArg) :
    (validateStandardNumbers a).isValid = true := by
  cases a with
  | notAList => rfl
  | ofList entries =>
    simp only [validateStandardNumbers]
    split <;> rfl

theorem validateStandardNumbers_foldl_eq (entries : List (Option String)) (acc : List String) :
    entries.foldl
      (fun acc e =>
        match e with
        | none => acc
        | some std =>
          let stdClean := pyUpper (pyStrip std)
          if stdClean.length > 50 then acc
          else if standardPatternMatch stdClean then acc ++ [stdClean]
          else acc)
      acc
    = acc ++ entries.filterMap cleanStandardEntry := by
  induction entries generalizing acc with
  | nil => simp
  | cons e t ih =>
    cases e with
    | none =>
      simp only [List.foldl_cons, List.filterMap_cons, cleanStandardEntry, Option.none_bind]
      exact ih acc
    | some std =>
      simp only [List.foldl_cons, List.filterMap_cons, cleanStandardEntry, Option.some_bind]
      by_cases h1 : (pyUpper (pyStrip std)).length > 50
      · have hcond : ¬((pyUpper (pyStrip std)).length ≤ 50 ∧
            standardPatternMatch (pyUpper (pyStrip std)) = true) := by
          intro hc; omega
        rw [if_pos h1, if_neg hcond]
        exact ih acc
      · by_cases h2 : standardPatternMatch (pyUpper (pyStrip std)) = true
        · have hcond : (pyUpper (pyStrip std)).length ≤ 50 ∧
              standardPatternMatch (pyUpper (pyStrip std)) = true := ⟨by omega, h2⟩
          rw [if_neg h1, if_pos h2, if_pos hcond]
          show List.foldl _ (acc ++ [pyUpper (pyStrip std)]) t
            = acc ++ (pyUpper (pyStrip std) :: List.filterMap cleanStandardEntry t)
          rw [ih (acc ++ [pyUpper (pyStrip std)])]
          simp
        · have hcond : ¬((pyUpper (pyStrip std)).length ≤ 50 ∧
              standardPatternMatch (pyUpper (pyStrip std)) = true) := by
            intro hc; exact h2 hc.2
          rw [if_neg h1, if_neg h2, if_neg hcond]
          exact ih acc

theorem validateStandardNumbers_sanitized (entries : List (Option String)) :
    (validateStandardNumbers (.ofList entries)).sanitizedInput.getD []
      = entries.filterMap cleanStandardEntry := by
  simp only [validateStandardNumbers]
  by_cases h : entries.isEmpty
  · rw [if_pos h]
    rw [List.isEmpty_iff] at h
    subst h
    rfl
  · rw [if_neg h]
    simp only [Option.getD_some]
    exact validateStandardNumbers_foldl_eq entries []

/-! ## Claim theorems -/

/-- Claim C3 (counterexample).  The claim asserts that the StandardNumber
validation regex accepts `"NS-EN 13141-8:2006"` and rejects `"banana"`
(after upper-casing and trimming); on the code's pattern
`^[A-Z]{1,10}[\s\-]?[0-9A-Z\-]{1,15}(?:[\:\+][0-9A-Z\-]{1,20})?$` both are
false: the multi-segment prefix `NS-EN …` cannot match (the body class has
no space), while `BANANA` matches as prefix `BANAN` plus body `A`. -/
theorem C3_counterexample :
    standardPatternMatch (pyUpper (pyStrip "NS-EN 13141-8:2006")) = false ∧
    standardPatternMatch (pyUpper (pyStrip "banana")) = true := by
  decide

/-- Claim C3 (amended): of the claim's test vectors, the validation pattern
accepts `"EN 1991-1-4"` and `"NS 11001-1"` and rejects `"<script>"` and
`"12345"` as claimed, but it rejects `"NS-EN 13141-8:2006"`,
`"ISO/IEC 27001:2013"` and `"EN ISO 1461"` (multi-segment prefixes with an
internal space or slash) and accepts `"banana"` and `"NS"` (letters are body
characters, so a trailing letter can serve as the body). -/
theorem C3_regex_on_test_vectors :
    standardPatternMatch (pyUpper (pyStrip "EN 1991-1-4")) = true ∧
    standardPatternMatch (pyUpper (pyStrip "NS 11001-1")) = true ∧
    standardPatternMatch (pyUpper (pyStrip "<script>")) = false ∧
    standardPatternMatch (pyUpper (pyStrip "12345")) = false ∧
    standardPatternMatch (pyUpper (pyStrip "NS-EN 13141-8:2006")) = false ∧
    standardPatternMatch (pyUpper (pyStrip "ISO/IEC 27001:2013")) = false ∧
    standardPatternMatch (pyUpper (pyStrip "EN ISO 1461")) = false ∧
    standardPatternMatch (pyUpper (pyStrip "banana")) = true ∧
    standardPatternMatch (pyUpper (pyStrip "NS")) = true := by
  decide

/-- Claim C6: on a transport error or a non-success status, `search` returns
the empty response (`hits.total.value = 0`, empty hits array) instead of
raising. -/
theorem C6_search_error_yields_empty (t : ESTransport) (tookMs : Nat)
    (h : t = ESTransport.failure ∨ ∃ s b, t = ESTransport.response s b ∧ s ≠ 200) :
    (searchResult t tookMs).hits.total.value = 0 ∧ (searchResult t tookMs).hits.hits = [] := by
  rcases h with h | ⟨s, b, rfl, hs⟩
  · subst h; exact ⟨rfl, rfl⟩
  · simp only [searchResult, if_neg hs]
    exact ⟨rfl, rfl⟩

theorem C6_search_error_yields_empty_witness :
    (searchResult (ESTransport.response 503 oneHitResponse) 7).hits.total.value = 0 ∧
    (searchResult (ESTransport.response 503 oneHitResponse) 7).hits.hits = [] :=
  C6_search_error_yields_empty (ESTransport.response 503 oneHitResponse) 7
    (Or.inr ⟨503, oneHitResponse, rfl, by decide⟩)

/-- Claim C1: two prompt-cache requests with the same namespace, content and
remaining kwargs but different non-trivial conversation memories derive
different cache keys — the memory is part of the digested `kwargs` payload,
so the keys differ for every choice of the short-hash function — hence
storing under one key never changes what the other key reads; the key
additionally records the short hash of the memory, and for the `answer`
namespace it sets `memory_context = true`.  (The final MD5 digest of the
canonical JSON payload identifies keys exactly when the payloads coincide,
up to MD5 collisions, which the code assumes away.) -/
theorem C1_cache_isolation (md5short : String → String) (pt content : String)
    (rest : List (String × String)) (m₁ m₂ : String)
    (hne : m₁ ≠ m₂) (h₁ : m₁ ≠ "" ∧ m₁ ≠ "0") (h₂ : m₂ ≠ "" ∧ m₂ ≠ "0") :
    generateCacheKey md5short pt content ⟨some m₁, rest⟩ ≠
      generateCacheKey md5short pt content ⟨some m₂, rest⟩ ∧
    (generateCacheKey md5short pt content ⟨some m₁, rest⟩).memoryHash = some (md5short m₁) ∧
    (generateCacheKey md5short pt content ⟨some m₂, rest⟩).memoryHash = some (md5short m₂) ∧
    (pt = "answer" →
      (generateCacheKey md5short pt content ⟨some m₁, rest⟩).memoryContext = true) ∧
    (∀ (cache : PromptCache) (v : String),
      lookupCache
        (setCache cache (generateCacheKey md5short pt content ⟨some m₁, rest⟩) v)
        (generateCacheKey md5short pt content ⟨some m₂, rest⟩) =
      lookupCache cache (generateCacheKey md5short pt content ⟨some m₂, rest⟩)) := by
  have hkw : (⟨some m₁, rest⟩ : KwArgs) ≠ ⟨some m₂, rest⟩ := by
    intro h
    exact hne (by injection h with h' _; injection h')
  have hmem₁ : (KwArgs.memory ⟨some m₁, rest⟩) = m₁ := rfl
  have hmem₂ : (KwArgs.memory ⟨some m₂, rest⟩) = m₂ := rfl
  have hkey : generateCacheKey md5short pt content ⟨some m₁, rest⟩ ≠
      generateCacheKey md5short pt content ⟨some m₂, rest⟩ := by
    intro h
    exact hkw (congrArg CacheKey.kwargs h)
  refine ⟨hkey, ?_, ?_, ?_, ?_⟩
  · simp [generateCacheKey, hmem₁, h₁.1, h₁.2]
  · simp [generateCacheKey, hmem₂, h₂.1, h₂.2]
  · intro hpt
    simp [generateCacheKey, hmem₁, hpt, h₁.1, h₁.2]
  · intro cache v
    simp only [setCache, lookupCache]
    rw [if_neg hkey]

theorem C1_cache_isolation_witness :
    "USER: a" ≠ "USER: b" ∧
    (generateCacheKey (fun _ => "deadbeef") "answer" "q" ⟨some "USER: a", []⟩ ≠
      generateCacheKey (fun _ => "deadbeef") "answer" "q" ⟨some "USER: b", []⟩) :=
  ⟨by decide,
    (C1_cache_isolation (fun _ => "deadbeef") "answer" "q" [] "USER: a" "USER: b"
      (by decide) ⟨by decide, by decide⟩ ⟨by decide, by decide⟩).1⟩

/-- Claim C2 (code_bug): a request whose final route is `memory` never
reaches the query builder — `QueryObjectBuilder` has no `build_memory_query`
method, so `process_query` raises `AttributeError` at the call site, its
generic handler returns the apology dict with `success = False`, and no
search is submitted.  The run below takes the memory route (analysis
`memory`, extracted memory term `NS 3457-7` surviving validation) and ends
in exactly that state. -/
theorem C2_memory_route_raises_attribute_error :
    (processQuery memorySampleEnv "og hva med punkt 5?"
        "USER: Hva sier NS 3457-7 om bygningsdeler?\nSYSTEM: Den klassifiserer bygningsdeler.").routeDecided
      = some "memory" ∧
    (processQuery memorySampleEnv "og hva med punkt 5?"
        "USER: Hva sier NS 3457-7 om bygningsdeler?\nSYSTEM: Den klassifiserer bygningsdeler.").errorKind
      = some ErrKind.buildMemoryAttributeError ∧
    (processQuery memorySampleEnv "og hva med punkt 5?"
        "USER: Hva sier NS 3457-7 om bygningsdeler?\nSYSTEM: Den klassifiserer bygningsdeler.").queriesIssued
      = [] ∧
    (processQuery memorySampleEnv "og hva med punkt 5?"
        "USER: Hva sier NS 3457-7 om bygningsdeler?\nSYSTEM: Den klassifiserer bygningsdeler.").success
      = some false ∧
    (processQuery memorySampleEnv "og hva med punkt 5?"
        "USER: Hva sier NS 3457-7 om bygningsdeler?\nSYSTEM: Den klassifiserer bygningsdeler.").answer
      = "Beklager, det oppstod en feil under behandling av spørsmålet: 'QueryObjectBuilder' object has no attribute 'build_memory_query'" := by
  refine ⟨rfl, rfl, rfl, rfl, rfl⟩

/-- Claim C9 (counterexample).  The claim asserts that
`validate_standard_numbers` deduplicates; the code keeps every match, so a
repeated input element appears twice in the output. -/
theorem C9_counterexample :
    (validateStandardNumbers (.ofList [some "EN 1991-1-4", some "EN 1991-1-4"])).sanitizedInput
      = some ["EN 1991-1-4", "EN 1991-1-4"] ∧
    ¬ (["EN 1991-1-4", "EN 1991-1-4"] : List String).Nodup := by
  exact ⟨rfl, by decide⟩

/-- Claim C9 (amended): for every input list, `validate_standard_numbers`
returns exactly the entry-wise cleaning of the list — each surviving element
is the upper-cased strip of a `str` input element, matches the
StandardNumber pattern and is at most 50 characters, and elements survive in
input order (the output is the `filterMap` of the input) — but duplicates
are NOT removed. -/
theorem C9_validate_standard_numbers (entries : List (Option String)) :
    (validateStandardNumbers (.ofList entries)).sanitizedInput.getD []
      = entries.filterMap cleanStandardEntry ∧
    (∀ s ∈ (validateStandardNumbers (.ofList entries)).sanitizedInput.getD [],
      standardPatternMatch s = true ∧ s.length ≤ 50 ∧
      ∃ raw, some raw ∈ entries ∧ s = pyUpper (pyStrip raw)) := by
  refine ⟨validateStandardNumbers_sanitized entries, ?_⟩
  intro s hs
  rw [validateStandardNumbers_sanitized entries] at hs
  rw [List.mem_filterMap] at hs
  obtain ⟨e, he, hclean⟩ := hs
  cases e with
  | none => simp [cleanStandardEntry] at hclean
  | some raw =>
    simp only [cleanStandardEntry, Option.some_bind] at hclean
    by_cases hc : (pyUpper (pyStrip raw)).length ≤ 50 ∧
        standardPatternMatch (pyUpper (pyStrip raw)) = true
    · rw [if_pos hc] at hclean
      obtain rfl : pyUpper (pyStrip raw) = s := by injection hclean
      exact ⟨hc.2, hc.1, raw, he, rfl⟩
    · rw [if_neg hc] at hclean
      exact absurd hclean (by simp)

theorem C9_validate_standard_numbers_witness :
    (validateStandardNumbers (.ofList [some " ns 3457-7 ", none, some "12345"])).sanitizedInput.getD []
      = ["NS 3457-7"] := by
  have h := (C9_validate_standard_numbers [some " ns 3457-7 ", none, some "12345"]).1
  rw [h]
  decide

theorem processQueryFinish_errorKind_ne (env : Env) (sq mem route : String)
    (rs mt : List String) (fb : Bool) (qo : QueryObject) :
    (processQueryFinish env sq mem route rs mt fb qo).errorKind
      ≠ some ErrKind.standardsValidationFailed := by
  simp only [processQueryFinish]
  cases env.answerOf sq (formatChunks (searchResult (env.searchOf qo) 0)) mem <;> simp

theorem processQueryDispatch_errorKind_ne (env : Env) (sq mem optimized route : String)
    (rs mt : List String) (fb : Bool) :
    (processQueryDispatch env sq mem optimized route rs mt fb).errorKind
      ≠ some ErrKind.standardsValidationFailed := by
  simp only [processQueryDispatch]
  split
  · simp
  · split
    · apply processQueryFinish_errorKind_ne
    · split
      · apply processQueryFinish_errorKind_ne
      · split
        · simp
        · apply processQueryFinish_errorKind_ne

theorem processQueryRouting_errorKind_ne (env : Env) (sq mem optimized analysis : String)
    (raw rs mt : List String) (fb : Bool) :
    (processQueryRouting env sq mem optimized analysis raw rs mt fb).errorKind
      ≠ some ErrKind.standardsValidationFailed := by
  simp only [processQueryRouting]
  apply processQueryDispatch_errorKind_ne

theorem processQueryValidationPhase_errorKind_ne (env : Env)
    (sq mem optimized analysis : String) (raw mt : List String) (fb : Bool) :
    (processQueryValidationPhase env sq mem optimized analysis raw mt fb).errorKind
      ≠ some ErrKind.standardsValidationFailed := by
  simp only [processQueryValidationPhase, validateStandardNumbers_isValid]
  split
  · split
    · apply processQueryRouting_errorKind_ne
    · apply processQueryRouting_errorKind_ne
  · split
    · next h => simp [validateStandardNumbers_isValid] at h
    · apply processQueryRouting_errorKind_ne

theorem sseComplete_errorKind_ne (hs : Bool) (route : String) (st mt : List String)
    (qo : QueryObject) (chunks answer : String) (acc : List SSEEvent) :
    (sseComplete hs route st mt qo chunks answer acc).1.errorKind
      ≠ some ErrKind.standardsValidationFailed := by
  simp [sseComplete]

theorem sseFinish_errorKind_ne (env : Env) (hs : Bool) (sq mem route : String)
    (st mt : List String) (qo : QueryObject) (acc : List SSEEvent) :
    (sseFinish env hs sq mem route st mt qo acc).1.errorKind
      ≠ some ErrKind.standardsValidationFailed := by
  simp only [sseFinish]
  split
  · apply sseComplete_errorKind_ne
  · split
    · apply sseComplete_errorKind_ne
    · apply sseComplete_errorKind_ne

theorem sseBuild_errorKind_ne (env : Env) (hs : Bool) (sq mem route : String)
    (st mt : List String) (emb : List Int) (acc : List SSEEvent) :
    (sseBuild env hs sq mem route st mt emb acc).1.errorKind
      ≠ some ErrKind.standardsValidationFailed := by
  simp only [sseBuild]
  split
  · simp
  · split
    · split
      · next h => simp [validateStandardNumbers_isValid] at h
      · apply sseFinish_errorKind_ne
    · split
      · apply sseFinish_errorKind_ne
      · split
        · simp
        · apply sseFinish_errorKind_ne

theorem sseEmbedPhase_errorKind_ne (env : Env) (hs : Bool)
    (sq mem optimized route : String) (st mt : List String) (acc : List SSEEvent) :
    (sseEmbedPhase env hs sq mem optimized route st mt acc).1.errorKind
      ≠ some ErrKind.standardsValidationFailed := by
  simp only [sseEmbedPhase]
  split
  · simp
  · split
    · simp
    · apply sseBuild_errorKind_ne

/-- Claim C10: `validate_standard_numbers` returns `is_valid = True` on
every input — a non-list, an empty list, a list with non-`str` elements, any
list of strings — because invalid entries are silently dropped; hence the
orchestrator branches that return the standards-validation error answer
("Standard validation failed") can never produce a result, in either
`process_query` or `process_query_with_sse`. -/
theorem C10_standards_validation_never_fails :
    (∀ a : StandardsArg, (validateStandardNumbers a).isValid = true) ∧
    (∀ (env : Env) (q mem : String),
      (processQuery env q mem).errorKind ≠ some ErrKind.standardsValidationFailed) ∧
    (∀ (env : Env) (q mem : String) (hs : Bool),
      (processQuerySSE env q mem hs).1.errorKind ≠ some ErrKind.standardsValidationFailed) := by
  refine ⟨validateStandardNumbers_isValid, ?_, ?_⟩
  · intro env q mem
    simp only [processQuery]
    split
    · simp
    · split
      · split
        · apply processQueryValidationPhase_errorKind_ne
        · apply processQueryValidationPhase_errorKind_ne
      · apply processQueryValidationPhase_errorKind_ne
  · intro env q mem hs
    simp only [processQuerySSE]
    split
    · simp
    · apply sseEmbedPhase_errorKind_ne

theorem C10_standards_validation_never_fails_witness :
    (validateStandardNumbers .notAList).isValid = true ∧
    (processQuery sampleEnv "Hva sier NS 99999 om vindlast?" "0").errorKind
      ≠ some ErrKind.standardsValidationFailed :=
  ⟨C10_standards_validation_never_fails.1 .notAList,
   C10_standards_validation_never_fails.2.1 sampleEnv "Hva sier NS 99999 om vindlast?" "0"⟩

theorem formatChunks_of_no_hits (resp : ESResponse) (h : resp.hits.hits = []) :
    formatChunks resp = "Ingen relevante dokumenter funnet." := by
  simp only [formatChunks, h]
  rfl

theorem processQueryFinish_zero_hits (env : Env) (sq mem route : String)
    (rs mt : List String) (fb : Bool) (qo : QueryObject) (a : String)
    (hzero : (searchResult (env.searchOf qo) 0).hits.hits = [])
    (hans : env.answerOf sq "Ingen relevante dokumenter funnet." mem = .ok a) :
    processQueryFinish env sq mem route rs mt fb qo =
      { answer := a, success := some true, routeTaken := some route,
        standardNumbers := rs, memoryTerms := mt, memoryFallback := fb,
        chunks := some "Ingen relevante dokumenter funnet.",
        routeDecided := some route, queriesIssued := [qo] } := by
  simp only [processQueryFinish, formatChunks_of_no_hits _ hzero, hans]

theorem processQueryValidationPhase_nonmemory (env : Env)
    (sq mem optimized analysis : String) (raw mt : List String) (fb : Bool)
    (h : pyLower analysis ≠ "memory") :
    processQueryValidationPhase env sq mem optimized analysis raw mt fb =
      processQueryRouting env sq mem optimized analysis raw
        ((validateStandardNumbers (.ofList (raw.map some))).sanitizedInput.getD []) [] fb := by
  simp only [processQueryValidationPhase]
  rw [if_neg h, if_neg (by simp [validateStandardNumbers_isValid])]

theorem processQueryRouting_including (env : Env) (sq mem optimized analysis : String)
    (raw rs mt : List String) (fb : Bool)
    (hana : pyLower analysis = "including") (hraw : raw ≠ []) :
    processQueryRouting env sq mem optimized analysis raw rs mt fb =
      processQueryDispatch env sq mem optimized "including" rs mt fb := by
  simp only [processQueryRouting]
  have h1 : ¬(pyLower analysis = "memory" ∧ ¬mt.isEmpty = true) := by
    rw [hana]
    rintro ⟨h, -⟩
    exact absurd h (by decide)
  have h2 : pyLower analysis = "including" ∧ ¬raw.isEmpty = true := by
    refine ⟨hana, ?_⟩
    simp [List.isEmpty_iff, hraw]
  rw [if_neg h1, if_pos h2]

theorem processQueryDispatch_including (env : Env) (sq mem optimized : String)
    (rs mt : List String) (fb : Bool) :
    processQueryDispatch env sq mem optimized "including" rs mt fb =
      processQueryFinish env sq mem "including" rs mt fb
        (buildFilterQuery rs sq (embeddingsPhase env optimized)) := by
  simp only [processQueryDispatch]
  rw [if_neg (by decide : ¬(("including" : String) = "memory"))]
  simp

theorem processQuery_including_zero_hits (env : Env) (q mem a : String)
    (hv : (validateQuestion q).isValid = true)
    (hana : pyLower (env.analysisOf ((validateQuestion q).sanitizedInput.getD "") mem) = "including")
    (hstd : env.extractStandardOf ((validateQuestion q).sanitizedInput.getD "") ≠ [])
    (hzero : ∀ qo : QueryObject, (searchResult (env.searchOf qo) 0).hits.hits = [])
    (hans : ∀ ch, env.answerOf ((validateQuestion q).sanitizedInput.getD "") ch mem = .ok a) :
    processQuery env q mem =
      { answer := a, success := some true, routeTaken := some "including",
        standardNumbers := (validateStandardNumbers
            (.ofList ((env.extractStandardOf ((validateQuestion q).sanitizedInput.getD "")).map some))).sanitizedInput.getD [],
        memoryTerms := [], memoryFallback := false,
        chunks := some "Ingen relevante dokumenter funnet.",
        routeDecided := some "including",
        queriesIssued := [buildFilterQuery
          ((validateStandardNumbers
            (.ofList ((env.extractStandardOf ((validateQuestion q).sanitizedInput.getD "")).map some))).sanitizedInput.getD [])
          ((validateQuestion q).sanitizedInput.getD "")
          (embeddingsPhase env (env.optimizedOf ((validateQuestion q).sanitizedInput.getD "") mem))] } := by
  simp only [processQuery]
  rw [if_neg (by simp [hv])]
  rw [if_neg (by rw [hana]; decide)]
  rw [processQueryValidationPhase_nonmemory _ _ _ _ _ _ _ _ (by rw [hana]; decide)]
  rw [processQueryRouting_including _ _ _ _ _ _ _ _ _ hana hstd]
  rw [processQueryDispatch_including]
  rw [processQueryFinish_zero_hits _ _ _ _ _ _ _ _ _ (hzero _) (hans _)]

/-- Claim C4 (counterexample).  The claim asserts that an `including` run
whose first search returns 0 hits submits a second, textual-builder search;
in the run below (route `including`, search transport returning a 200
response with zero hits) the ghost trace shows exactly ONE submitted query —
the filter-builder one — and the pipeline proceeds directly to the
empty-chunks literal and the answer. -/
theorem C4_counterexample :
    (processQuery sampleEnv "Hva sier NS 99999 om vindlast?" "0").queriesIssued
      = [buildFilterQuery ["NS 99999"] "Hva sier NS 99999 om vindlast?" (some [1, 2])] ∧
    (processQuery sampleEnv "Hva sier NS 99999 om vindlast?" "0").routeTaken
      = some "including" ∧
    (searchResult (sampleEnv.searchOf
        (buildFilterQuery ["NS 99999"] "Hva sier NS 99999 om vindlast?" (some [1, 2]))) 0).hits.hits
      = [] ∧
    (processQuery sampleEnv "Hva sier NS 99999 om vindlast?" "0").chunks
      = some "Ingen relevante dokumenter funnet." := by
  exact ⟨rfl, rfl, rfl, rfl⟩

/-- Claim C4 (amended): when the final route is `including` and the (only)
search returns 0 hits, `process_query` does NOT retry: exactly one query
object is submitted, the zero-hit response is formatted to the literal
"Ingen relevante dokumenter funnet.", and the answer is generated from that
empty-chunks context. -/
theorem C4_no_second_search (env : Env) (q mem a : String)
    (hv : (validateQuestion q).isValid = true)
    (hana : pyLower (env.analysisOf ((validateQuestion q).sanitizedInput.getD "") mem) = "including")
    (hstd : env.extractStandardOf ((validateQuestion q).sanitizedInput.getD "") ≠ [])
    (hzero : ∀ qo : QueryObject, (searchResult (env.searchOf qo) 0).hits.hits = [])
    (hans : ∀ ch, env.answerOf ((validateQuestion q).sanitizedInput.getD "") ch mem = .ok a) :
    (processQuery env q mem).queriesIssued.length = 1 ∧
    (processQuery env q mem).routeTaken = some "including" ∧
    (processQuery env q mem).chunks = some "Ingen relevante dokumenter funnet." ∧
    (processQuery env q mem).answer = a ∧
    (processQuery env q mem).success = some true := by
  rw [processQuery_including_zero_hits env q mem a hv hana hstd hzero hans]
  exact ⟨rfl, rfl, rfl, rfl, rfl⟩

theorem C4_no_second_search_witness :
    (processQuery sampleEnv "Hva sier NS 99999 om vindlast?" "0").queriesIssued.length = 1 ∧
    (processQuery sampleEnv "Hva sier NS 99999 om vindlast?" "0").routeTaken = some "including" ∧
    (processQuery sampleEnv "Hva sier NS 99999 om vindlast?" "0").chunks
      = some "Ingen relevante dokumenter funnet." ∧
    (processQuery sampleEnv "Hva sier NS 99999 om vindlast?" "0").answer = "Svar." ∧
    (processQuery sampleEnv "Hva sier NS 99999 om vindlast?" "0").success = some true :=
  C4_no_second_search sampleEnv "Hva sier NS 99999 om vindlast?" "0" "Svar."
    (by decide) (by decide) (by decide) (fun _ => rfl) (fun _ => rfl)

theorem takeLast_of_length_le {α : Type} (n : Nat) (l : List α) (h : l.length ≤ n) :
    takeLast n l = l := by
  unfold takeLast
  have : l.length - n = 0 := by omega
  rw [this, List.drop_zero]

theorem takeLast_length_le {α : Type} (n : Nat) (l : List α) :
    (takeLast n l).length ≤ n := by
  unfold takeLast
  rw [List.length_drop]
  omega

theorem takeLast_sublist {α : Type} (n : Nat) (l : List α) :
    ∀ x ∈ takeLast n l, x ∈ l := by
  intro x hx
  unfold takeLast at hx
  exact List.mem_of_mem_drop hx

theorem takeLast_snoc {α : Type} (n : Nat) (l : List α) (a : α) :
    takeLast n (takeLast n l ++ [a]) = takeLast n (l ++ [a]) := by
  unfold takeLast
  by_cases h : l.length ≤ n
  · have h0 : l.length - n = 0 := by omega
    rw [h0, List.drop_zero]
  · push_neg at h
    rcases Nat.eq_zero_or_pos n with hn | hn
    · subst hn
      have e1 : l.length - 0 = l.length := by omega
      rw [e1, List.drop_length, List.nil_append]
      have e2 : ([a] : List α).length - 0 = [a].length := by omega
      rw [e2, List.drop_length]
      have e3 : (l ++ [a]).length - 0 = (l ++ [a]).length := by omega
      rw [e3, List.drop_length]
    · have hlen : (l.drop (l.length - n)).length = n := by
        rw [List.length_drop]; omega
      have hL : ((l.drop (l.length - n)) ++ [a]).length = n + 1 := by
        rw [List.length_append, hlen]; rfl
      rw [hL]
      have h1 : n + 1 - n = 1 := by omega
      rw [h1]
      have hdrop1 : (1 : Nat) ≤ (l.drop (l.length - n)).length := by
        rw [hlen]; omega
      rw [List.drop_append_of_le_length hdrop1, List.drop_drop]
      have h2 : (l ++ [a]).length = l.length + 1 := by simp
      rw [h2]
      have h3 : l.length + 1 - n ≤ l.length := by omega
      rw [List.drop_append_of_le_length h3]
      congr 2
      omega

theorem storeLookup_storeSet (st : MemoryStore) (sid : String) (v : List Exchange)
    (sid' : String) :
    storeLookup (storeSet st sid v) sid' =
      if sid' = sid then some v else storeLookup st sid' := by
  induction st with
  | nil =>
    by_cases h : sid' = sid
    · subst h; simp [storeSet, storeLookup]
    · have h' : ¬(sid = sid') := fun hh => h hh.symm
      simp [storeSet, storeLookup, h, h']
  | cons p t ih =>
    obtain ⟨k, w⟩ := p
    by_cases hk : k = sid
    · subst hk
      by_cases h' : k = sid'
      · subst h'; simp [storeSet, storeLookup]
      · have h'' : ¬(sid' = k) := fun hh => h' hh.symm
        simp [storeSet, storeLookup, h', h'']
    · by_cases h' : k = sid'
      · subst h'
        have h'' : ¬(k = sid) := hk
        have h''' : ¬(sid = k) := fun hh => hk hh.symm
        simp [storeSet, storeLookup, h'', h''']
      · simp [storeSet, storeLookup, hk, h', ih]

theorem updateConversationMemory_eq (st : MemoryStore) (sid u s : String) :
    updateConversationMemory st sid u s =
      storeSet st sid
        (takeLast 5 ((storeLookup st sid).getD [] ++ [⟨pyStrip u, pyTake 1000 (pyStrip s)⟩])) := by
  simp only [updateConversationMemory]
  congr 1
  by_cases h : ((storeLookup st sid).getD [] ++ [(⟨pyStrip u, pyTake 1000 (pyStrip s)⟩ : Exchange)]).length > 5
  · rw [if_pos h]
  · rw [if_neg h]
    rw [takeLast_of_length_le _ _ (by omega)]

theorem appendsFor_append (ops : List (String × String × String))
    (op : String × String × String) (sid : String) :
    appendsFor (ops ++ [op]) sid =
      appendsFor ops sid ++ (if op.1 = sid then [storedExchange op] else []) := by
  simp only [appendsFor, List.filter_append, List.map_append]
  congr 1
  by_cases h : op.1 = sid
  · rw [List.filter_cons, if_pos (by simpa using h)]
    simp [h]
  · rw [List.filter_cons, if_neg (by simpa using h)]
    simp [h]

theorem applyAppends_lookup (ops : List (String × String × String)) (sid : String) :
    storeLookup (applyAppends ops) sid =
      (if (appendsFor ops sid).isEmpty then none
       else some (takeLast 5 (appendsFor ops sid))) := by
  induction ops using List.reverseRecOn with
  | nil => rfl
  | append_singleton ops op ih =>
    have happly : applyAppends (ops ++ [op]) =
        updateConversationMemory (applyAppends ops) op.1 op.2.1 op.2.2 := by
      simp [applyAppends, List.foldl_append]
    rw [happly, updateConversationMemory_eq, storeLookup_storeSet, appendsFor_append]
    by_cases hsid : sid = op.1
    · rw [if_pos hsid, if_pos hsid.symm, ← hsid]
      have hprev : (storeLookup (applyAppends ops) sid).getD []
          = takeLast 5 (appendsFor ops sid) := by
        rw [ih]
        by_cases he : (appendsFor ops sid).isEmpty
        · rw [if_pos he, List.isEmpty_iff.mp he]
          rfl
        · rw [if_neg he]
          rfl
      rw [hprev]
      rw [if_neg (by simp : ¬((appendsFor ops sid ++ [storedExchange op]).isEmpty = true))]
      rw [takeLast_snoc]
      rfl
    · rw [if_neg hsid, if_neg (show ¬(op.1 = sid) from fun h => hsid h.symm)]
      simp only [List.append_nil]
      exact ih

theorem foldl_two_lines (l : List Exchange) (acc : List String) :
    l.foldl
      (fun acc e =>
        acc ++ ["USER: " ++ cleanForMemoryLine e.user, "SYSTEM: " ++ cleanForMemoryLine e.system])
      acc
    = acc ++ l.flatMap
        (fun e => ["USER: " ++ cleanForMemoryLine e.user, "SYSTEM: " ++ cleanForMemoryLine e.system]) := by
  induction l generalizing acc with
  | nil => simp
  | cons e t ih =>
    simp only [List.foldl_cons, List.flatMap_cons, ih]
    simp

/-- Claim C5: for every sequence of appends and every session, the stored
exchange list is exactly the last five appends of that session, in
chronological order, with the user field trimmed and the system field
trimmed then truncated to 1000 characters (so at most 5 exchanges, each
system text of length ≤ 1000); `Get` returns the literal `"0"` on an absent
or empty session, and otherwise the alternating `USER:` / `SYSTEM:` lines of
the stored exchanges in chronological order. -/
theorem C5_conversation_memory :
    (∀ (ops : List (String × String × String)) (sid : String),
      storeLookup (applyAppends ops) sid =
        (if (appendsFor ops sid).isEmpty then none
         else some (takeLast 5 (appendsFor ops sid)))) ∧
    (∀ (ops : List (String × String × String)) (sid : String) (l : List Exchange),
      storeLookup (applyAppends ops) sid = some l →
      l.length ≤ 5 ∧ ∀ e ∈ l, e.system.length ≤ 1000) ∧
    (∀ (st : MemoryStore) (sid : String),
      storeLookup st sid = none → getConversationMemory st sid = "0") ∧
    (∀ (st : MemoryStore) (sid : String),
      storeLookup st sid = some [] → getConversationMemory st sid = "0") ∧
    (∀ (st : MemoryStore) (sid : String) (l : List Exchange),
      storeLookup st sid = some l → l ≠ [] → l.length ≤ 5 →
      getConversationMemory st sid =
        joinWith "\n" (l.flatMap (fun e =>
          ["USER: " ++ cleanForMemoryLine e.user,
           "SYSTEM: " ++ cleanForMemoryLine e.system]))) := by
  refine ⟨applyAppends_lookup, ?_, ?_, ?_, ?_⟩
  · intro ops sid l hl
    rw [applyAppends_lookup] at hl
    by_cases he : (appendsFor ops sid).isEmpty
    · rw [if_pos he] at hl; exact absurd hl (by simp)
    · rw [if_neg he] at hl
      obtain rfl : takeLast 5 (appendsFor ops sid) = l := by injection hl
      refine ⟨takeLast_length_le 5 _, ?_⟩
      intro e he'
      have hmem := takeLast_sublist 5 _ e he'
      simp only [appendsFor, List.mem_map] at hmem
      obtain ⟨op, _, rfl⟩ := hmem
      show ((pyStrip op.2.2).data.take 1000).length ≤ 1000
      rw [List.length_take]
      omega
  · intro st sid h
    simp [getConversationMemory, h]
  · intro st sid h
    simp [getConversationMemory, h]
  · intro st sid l h hne hlen
    simp only [getConversationMemory, h]
    rw [if_neg (by simpa [List.isEmpty_iff] using hne)]
    rw [takeLast_of_length_le 5 l hlen]
    rw [foldl_two_lines l []]
    rfl

theorem C5_conversation_memory_witness :
    storeLookup
      (applyAppends
        [("a", "Hei", "Svar en"), ("b", "Hallo", "Svar to"), ("a", "Mer", " Svar tre ")])
      "a"
      = some [⟨"Hei", "Svar en"⟩, ⟨"Mer", "Svar tre"⟩] ∧
    getConversationMemory (applyAppends [("a", "Hei", "Svar en")]) "b" = "0" := by
  constructor
  · rw [C5_conversation_memory.1
      [("a", "Hei", "Svar en"), ("b", "Hallo", "Svar to"), ("a", "Mer", " Svar tre ")] "a"]
    decide
  · apply C5_conversation_memory.2.2.1
    decide

theorem chunksLoop_prefix_sums (hs : List ESHit) :
    ∀ (i tot j : Nat), j < (chunksLoop i tot hs).length →
      tot + sumLens ((chunksLoop i tot hs).take j) ≤ 200000 := by
  induction hs with
  | nil => intro i tot j hj; simp [chunksLoop] at hj
  | cons h rest ih =>
    intro i tot j hj
    by_cases htot : tot > 200000
    · simp [chunksLoop, htot] at hj
    · simp only [chunksLoop, if_neg htot] at hj ⊢
      cases j with
      | zero => simp [sumLens]; omega
      | succ j =>
        simp only [List.take_succ_cons, sumLens, List.map_cons, List.sum_cons]
        have := ih (i + 1) (tot + (renderChunk i h).length) j (by
          simpa using Nat.lt_of_succ_lt_succ (by simpa using hj))
        simp only [sumLens] at this
        omega

theorem chunksLoop_mem_ends (hs : List ESHit) :
    ∀ (i tot : Nat) (c : String), c ∈ chunksLoop i tot hs → ∃ p, c = p ++ "---" := by
  induction hs with
  | nil => intro i tot c hc; simp [chunksLoop] at hc
  | cons h rest ih =>
    intro i tot c hc
    by_cases htot : tot > 200000
    · simp [chunksLoop, htot] at hc
    · simp only [chunksLoop, if_neg htot, List.mem_cons] at hc
      rcases hc with rfl | hc
      · exact ⟨"Dokument " ++ toString i ++ " (score: " ++ h.score ++ "):\n" ++
          "Referanse: " ++ sourceReference h.source ++ "\n" ++
          "Side: " ++ sourcePage h.source ++ "\n" ++
          "Innhold: " ++ renderHitText h.source ++ "\n", rfl⟩
      · exact ih _ _ _ hc

theorem chunksLoop_ordered (hs : List ESHit) :
    ∀ (i tot j : Nat), j < (chunksLoop i tot hs).length →
      (chunksLoop i tot hs).getD j "" = renderChunk (i + j) (hs.getD j defaultHit) := by
  induction hs with
  | nil => intro i tot j hj; simp [chunksLoop] at hj
  | cons h rest ih =>
    intro i tot j hj
    by_cases htot : tot > 200000
    · simp [chunksLoop, htot] at hj
    · simp only [chunksLoop, if_neg htot] at hj ⊢
      cases j with
      | zero => simp
      | succ j =>
        simp only [List.getD_cons_succ]
        have := ih (i + 1) (tot + (renderChunk i h).length) j (by
          simpa using Nat.lt_of_succ_lt_succ (by simpa using hj))
        rw [this]
        congr 1
        omega

/-- Claim C7 (counterexample).  The claim asserts that each hit's text is
truncated to 1800 characters when longer and that the total output is at
most 200 KB; the code truncates only above 2000 characters (a 1900-character
text passes through unchanged), and it bounds only the running total
measured BEFORE each chunk over the `text` field, so a single hit with a
300000-character `reference` makes the output exceed 200 KB. -/
theorem C7_counterexample :
    (renderHitText srcT1900 = t1900 ∧ 1800 < t1900.length) ∧
    200000 < (formatChunks respBig).length := by
  constructor
  · have hlen : t1900.length = 1900 := by
      show (List.replicate 1900 'a').length = 1900
      rw [List.length_replicate]
    constructor
    · show (if (sourceText srcT1900).length > 2000
          then pyTake 1800 (sourceText srcT1900) ++ "..." else sourceText srcT1900) = t1900
      rw [show sourceText srcT1900 = t1900 from rfl, hlen]
      rw [if_neg (by omega)]
    · rw [hlen]; omega
  · have hloop : chunksLoop 1 0 [hitBig] = [renderChunk 1 hitBig] := by
      unfold chunksLoop
      rw [if_neg (by omega : ¬((0 : Nat) > 200000))]
      rfl
    have hfc : formatChunks respBig = renderChunk 1 hitBig := by
      unfold formatChunks
      rw [if_neg (by decide : ¬((respBig.hits.hits.isEmpty) = true))]
      show joinWith "\n\n" (chunksLoop 1 0 [hitBig]) = renderChunk 1 hitBig
      rw [hloop]
      rfl
    rw [hfc]
    have hsr : sourceReference hitBig.source = refBig := rfl
    have href : refBig.length = 300000 := by
      show (List.replicate 300000 'R').length = 300000
      rw [List.length_replicate]
    have hrt : renderHitText hitBig.source = "x" := by
      unfold renderHitText
      rw [show sourceText hitBig.source = "x" from rfl]
      rw [if_neg (by decide)]
    simp only [renderChunk, String.length_append, hsr, href, hrt]
    decide

/-- Claim C7 (amended): `format_chunks` returns exactly the literal
"Ingen relevante dokumenter funnet." for zero hits; otherwise it joins the
emitted chunks with blank lines, where chunk `j` is rendered from hit `j`
(iteration in order), a hit's text is truncated to its first 1800 characters
plus "..." only when longer than 2000 characters (texts of length ≤ 2000,
including ones between 1800 and 2000, pass through unchanged), every emitted
chunk ends with "---", and the running total of emitted chunk lengths before
each emission is at most 200000 — so the final output may exceed 200 KB by
up to one chunk, whose reference and page fields are unbounded. -/
theorem C7_format_chunks (resp : ESResponse) :
    (resp.hits.hits = [] → formatChunks resp = "Ingen relevante dokumenter funnet.") ∧
    (resp.hits.hits ≠ [] →
      formatChunks resp = joinWith "\n\n" (chunksLoop 1 0 resp.hits.hits)) ∧
    (∀ s : ESSource, (sourceText s).length ≤ 2000 → renderHitText s = sourceText s) ∧
    (∀ s : ESSource, 2000 < (sourceText s).length →
      renderHitText s = pyTake 1800 (sourceText s) ++ "...") ∧
    (∀ (i tot : Nat) (c : String), c ∈ chunksLoop i tot resp.hits.hits →
      ∃ p, c = p ++ "---") ∧
    (∀ (i tot j : Nat), j < (chunksLoop i tot resp.hits.hits).length →
      tot + sumLens ((chunksLoop i tot resp.hits.hits).take j) ≤ 200000) ∧
    (∀ (i tot j : Nat), j < (chunksLoop i tot resp.hits.hits).length →
      (chunksLoop i tot resp.hits.hits).getD j ""
        = renderChunk (i + j) (resp.hits.hits.getD j defaultHit)) := by
  refine ⟨formatChunks_of_no_hits resp, ?_, ?_, ?_,
    chunksLoop_mem_ends resp.hits.hits,
    chunksLoop_prefix_sums resp.hits.hits,
    chunksLoop_ordered resp.hits.hits⟩
  · intro h
    unfold formatChunks
    rw [if_neg (by simpa [List.isEmpty_iff] using h)]
  · intro s hle
    unfold renderHitText
    rw [if_neg (by omega)]
  · intro s hgt
    unfold renderHitText
    rw [if_pos (by omega)]

theorem C7_format_chunks_witness :
    formatChunks zeroHitResponse = "Ingen relevante dokumenter funnet." ∧
    formatChunks oneHitResponse = joinWith "\n\n" (chunksLoop 1 0 oneHitResponse.hits.hits) :=
  ⟨(C7_format_chunks zeroHitResponse).1 rfl,
   (C7_format_chunks oneHitResponse).2.1 (by decide)⟩

theorem progressPercents_append (a b : List SSEEvent) :
    progressPercents (a ++ b) = progressPercents a ++ progressPercents b := by
  simp [progressPercents]

theorem progressPercents_tokens (toks : List String) :
    progressPercents (toks.map fun t => SSEEvent.token t false) = [] := by
  induction toks with
  | nil => rfl
  | cons t ts ih =>
    simp only [List.map_cons, progressPercents, List.filterMap_cons] at ih ⊢
    exact ih

theorem sseComplete_percents (route : String) (st mt : List String) (qo : QueryObject)
    (ch a : String) (acc : List SSEEvent) :
    progressPercents (sseComplete true route st mt qo ch a acc).2
      = progressPercents acc ++ [100] := by
  simp [sseComplete, emitIf, progressPercents_append, progressPercents]

theorem sseFinish_percents (env : Env) (sq mem route : String) (st mt : List String)
    (qo : QueryObject) (acc : List SSEEvent)
    (hstream : ∀ ch, (env.streamOf sq ch mem).isSome = true) :
    progressPercents (sseFinish env true sq mem route st mt qo acc).2
      = progressPercents acc ++ [70, 100, 80, 100, 85, 100] := by
  simp only [sseFinish]
  cases hm : env.streamOf sq (formatChunks (searchResult (env.searchOf qo) 0)) mem with
  | none =>
    have hcontra := hstream (formatChunks (searchResult (env.searchOf qo) 0))
    rw [hm] at hcontra
    exact absurd hcontra (by simp)
  | some toks =>
    rw [sseComplete_percents]
    simp [progressPercents_append, progressPercents_tokens, emitIf, progressPercents]

theorem sseBuild_percents (env : Env) (sq mem route : String) (st mt : List String)
    (emb : List Int) (acc : List SSEEvent)
    (hroute : route = "including" ∨ route = "without")
    (hstream : ∀ ch, (env.streamOf sq ch mem).isSome = true) :
    progressPercents (sseBuild env true sq mem route st mt emb acc).2
      = progressPercents acc ++ [60, 70, 100, 80, 100, 85, 100] := by
  rcases hroute with rfl | rfl
  · simp only [sseBuild]
    rw [if_neg (by decide : ¬(("including" : String) = "memory"))]
    simp only [if_true]
    rw [if_neg (by simp [validateStandardNumbers_isValid])]
    rw [sseFinish_percents _ _ _ _ _ _ _ _ hstream]
    simp [progressPercents_append, emitIf, progressPercents]
  · simp only [sseBuild]
    rw [if_neg (by decide : ¬(("without" : String) = "memory"))]
    rw [if_neg (by decide : ¬(("without" : String) = "including"))]
    simp only [if_true]
    rw [sseFinish_percents _ _ _ _ _ _ _ _ hstream]
    simp [progressPercents_append, emitIf, progressPercents]

theorem sseEmbedPhase_percents (env : Env) (sq mem optimized route : String)
    (st mt : List String) (acc : List SSEEvent) (v : List Int)
    (hroute : route = "including" ∨ route = "without")
    (hemb : env.embeddingsOf optimized = some v) (hvne : v ≠ [])
    (hstream : ∀ ch, (env.streamOf sq ch mem).isSome = true) :
    progressPercents (sseEmbedPhase env true sq mem optimized route st mt acc).2
      = progressPercents acc ++ [40, 100, 50, 60, 70, 100, 80, 100, 85, 100] := by
  simp only [sseEmbedPhase]
  rw [hemb]
  dsimp only
  rw [if_neg (by simp [List.isEmpty_iff, hvne])]
  rw [sseBuild_percents _ _ _ _ _ _ _ _ hroute hstream]
  simp [progressPercents_append, emitIf, progressPercents]

/-- Claim C8 (counterexample).  The claim asserts that within one streamed
query the progress percents are strictly increasing through
5→10→15→25→35→45-75→85→100; the published trace on a completing run is
`[5, 10, 100, 20, 100, 30, 40, 100, 50, 60, 70, 100, 80, 100, 85, 100]`
(stage-completion events carry 100 and the stage values are 20/30/40/50–80,
not 15/25/35/45–75), which is not strictly increasing. -/
theorem C8_counterexample :
    progressPercents (processQuerySSE sampleEnv "Hva sier standarden om brann?" "0" true).2
      = expectedSSEPercents ∧
    ¬ List.Pairwise (· < ·) expectedSSEPercents := by
  refine ⟨rfl, ?_⟩
  intro h
  simp only [expectedSSEPercents] at h
  rw [List.pairwise_iff_get] at h
  have h2 := h ⟨2, by decide⟩ ⟨3, by decide⟩ (by decide)
  exact absurd h2 (by decide)

/-- Claim C8 (amended): on every streamed query that reaches completion
(valid question, analysis not routed to `memory` or `personal`, embeddings
available, streaming succeeding), the percent values of the published
`progress` events are exactly
`[5, 10, 100, 20, 100, 30, 40, 100, 50, 60, 70, 100, 80, 100, 85, 100]`:
each stage announcement uses 5, 10, 20, 30, 40, 50–80, 85, and interleaved
stage-completion events carry 100, so the full sequence is not strictly
increasing. -/
theorem C8_progress_percent_trace (env : Env) (q mem : String) (v : List Int)
    (hv : (validateQuestion q).isValid = true)
    (hmem : ¬ pyLower (env.analysisOf ((validateQuestion q).sanitizedInput.getD "") mem)
      = "memory")
    (hper1 : pyContains
      (pyLower (env.analysisOf ((validateQuestion q).sanitizedInput.getD "") mem))
      "personal" = false)
    (hper2 : pyContains
      (pyLower (env.analysisOf ((validateQuestion q).sanitizedInput.getD "") mem))
      "personalhåndbok" = false)
    (hemb : env.embeddingsOf
      (env.optimizedOf ((validateQuestion q).sanitizedInput.getD "") mem) = some v)
    (hvne : v ≠ [])
    (hstream : ∀ ch,
      (env.streamOf ((validateQuestion q).sanitizedInput.getD "") ch mem).isSome = true) :
    progressPercents (processQuerySSE env q mem true).2 = expectedSSEPercents := by
  simp only [processQuerySSE]
  rw [if_neg (by simp [hv])]
  rw [if_neg hmem]
  by_cases hc : pyLower (env.analysisOf ((validateQuestion q).sanitizedInput.getD "") mem)
      = "including" ∧
      ¬(env.extractStandardOf ((validateQuestion q).sanitizedInput.getD "")).isEmpty = true
  · rw [if_pos hc]
    rw [sseEmbedPhase_percents _ _ _ _ _ _ _ _ _ (Or.inl rfl) hemb hvne hstream]
    simp [progressPercents_append, emitIf, progressPercents, expectedSSEPercents]
  · rw [if_neg hc]
    rw [if_neg (by simp [hper1, hper2])]
    rw [sseEmbedPhase_percents _ _ _ _ _ _ _ _ _ (Or.inr rfl) hemb hvne hstream]
    simp [progressPercents_append, emitIf, progressPercents, expectedSSEPercents]

theorem C8_progress_percent_trace_witness :
    progressPercents (processQuerySSE sampleEnv "Hva sier NS 99999 om vindlast?" "0" true).2
      = expectedSSEPercents :=
  C8_progress_percent_trace sampleEnv "Hva sier NS 99999 om vindlast?" "0" [1, 2]
    (by decide) (by decide) (by decide) (by decide) rfl (by decide) (fun _ => rfl)

end StandardGPT
